import Mathlib

/-!
Verification development for the aigrab repository (src/src/grabr.ts).

The TypeScript source is shallowly embedded in Lean:

* JavaScript runtime values handled by the serializable-value converter are
  modelled by the inductive `JSVal`; JS numbers are modelled as `Int`
  (none of the embedded operations perform non-integral arithmetic).
* JS strings are modelled as Lean `String`, one `Char` standing for one
  UTF-16 code unit (all inputs used in witnesses are in the BMP, where the
  two notions coincide).
* Fallible code (JS functions that may throw) returns `Except String α`;
  a `try/catch` in the source corresponds to a `match` on the `Except`.
* External capabilities (the bippy introspection library, `window`,
  `document`, `CSS.escape`, the clipboard provider) are modelled as an
  explicit environment record of functions, since their code is not part of
  this repository; DOM read accessors (`tagName`, `getAttribute`, geometry,
  computed style) are modelled as fields of an element value because they
  cannot throw.
-/

namespace Aigrab

/-- A JavaScript runtime value, as seen by `toSerializableValue`.
`obj` entries model `Object.entries` order (own enumerable string keys in
insertion order, keys pairwise distinct). `func` carries the function's
`name` property (used by `buildBehaviorContext`). -/
inductive JSVal where
  | null : JSVal
  | undef : JSVal
  | str (s : String) : JSVal
  | num (n : Int) : JSVal
  | bool (b : Bool) : JSVal
  | arr (xs : List JSVal) : JSVal
  | obj (entries : List (String × JSVal)) : JSVal
  | func (name : String) : JSVal
  | sym : JSVal

/-- The TS type `SerializableValue` minus `null`: `toSerializableValue`
returns `SerializableValue | null` with `null` meaning "dropped", so the
embedding returns `Option SVal`. -/
inductive SVal where
  | str (s : String) : SVal
  | num (n : Int) : SVal
  | bool (b : Bool) : SVal
  | arr (xs : List SVal) : SVal
  | obj (entries : List (String × SVal)) : SVal

mutual

/-- `toSerializableValue` from src/src/grabr.ts lines 806-848.
`JSVal.null` maps to `none` (the JS function returns `null` both for the
input `null` and as its failure marker). -/
def toSerializableValue (value : JSVal) (depth : Nat) : Option SVal :=
  if depth > 2 then
    none
  else
    match value with
    | .null => none
    | .str s => some (.str s)
    | .num n => some (.num n)
    | .bool b => some (.bool b)
    | .arr xs => some (.arr (convertArrayItems xs 5 depth))
    | .obj entries => some (.obj (convertObjectEntries entries 8 depth))
    | .undef => none
    | .func _ => none
    | .sym => none

/-- The array loop of `toSerializableValue`: `i` advances on every element
(converted or not) and the loop stops at 5, so `budget` counts remaining
loop iterations. Converted-`null` elements are dropped. -/
def convertArrayItems (xs : List JSVal) (budget : Nat) (depth : Nat) : List SVal :=
  match xs, budget with
  | [], _ => []
  | _, 0 => []
  | x :: rest, b + 1 =>
    match toSerializableValue x (depth + 1) with
    | some converted => converted :: convertArrayItems rest b depth
    | none => convertArrayItems rest b depth

/-- The object loop of `toSerializableValue`: `count` advances only when an
entry is kept (`converted !== null`), and the loop breaks at `count >= 8`,
so `budget` counts remaining slots for *kept* entries; skipped entries do
not consume it. -/
def convertObjectEntries (entries : List (String × JSVal)) (budget : Nat) (depth : Nat) :
    List (String × SVal) :=
  match entries, budget with
  | [], _ => []
  | _, 0 => []
  | (key, v) :: rest, b + 1 =>
    match toSerializableValue v (depth + 1) with
    | some converted => (key, converted) :: convertObjectEntries rest b depth
    | none => convertObjectEntries rest (b + 1) depth

end

mutual

/-- Embeds a converter result back into the JS value domain, for comparing
the converter's output with its input. -/
def svalToJS : SVal → JSVal
  | .str s => .str s
  | .num n => .num n
  | .bool b => .bool b
  | .arr xs => .arr (svalListToJS xs)
  | .obj es => .obj (svalEntriesToJS es)

def svalListToJS : List SVal → List JSVal
  | [] => []
  | x :: rest => svalToJS x :: svalListToJS rest

def svalEntriesToJS : List (String × SVal) → List (String × JSVal)
  | [] => []
  | (k, v) :: rest => (k, svalToJS v) :: svalEntriesToJS rest

end

mutual

/-- Nesting depth of a JS value: 0 for non-containers, 1 + deepest child for
arrays and objects. The spec phrase "nested at most 2 levels deep" is
`nestDepth v ≤ 2`. -/
def nestDepth : JSVal → Nat
  | .arr xs => 1 + nestDepthList xs
  | .obj es => 1 + nestDepthEntries es
  | _ => 0

def nestDepthList : List JSVal → Nat
  | [] => 0
  | x :: rest => max (nestDepth x) (nestDepthList rest)

def nestDepthEntries : List (String × JSVal) → Nat
  | [] => 0
  | (_, v) :: rest => max (nestDepth v) (nestDepthEntries rest)

end

mutual

/-- True when the value is built only from strings, numbers, booleans,
arrays and plain objects — no `null`, `undefined`, function or symbol
leaves anywhere. -/
def plainData : JSVal → Bool
  | .str _ => true
  | .num _ => true
  | .bool _ => true
  | .arr xs => plainDataList xs
  | .obj es => plainDataEntries es
  | _ => false

def plainDataList : List JSVal → Bool
  | [] => true
  | x :: rest => plainData x && plainDataList rest

def plainDataEntries : List (String × JSVal) → Bool
  | [] => true
  | (_, v) :: rest => plainData v && plainDataEntries rest

end

mutual

/-- Written from the claim wording of C4, not from the source: the input
"restricted to at most 8 object keys per level and at most 5 array items
per array", with no other change (in particular `null` elements are kept). -/
def specRestrict : JSVal → JSVal
  | .arr xs => .arr (specRestrictList xs 5)
  | .obj es => .obj (specRestrictEntries es 8)
  | v => v

/-- First `budget` items, each recursively restricted. -/
def specRestrictList : List JSVal → Nat → List JSVal
  | [], _ => []
  | _, 0 => []
  | x :: rest, b + 1 => specRestrict x :: specRestrictList rest b

/-- First `budget` entries, each value recursively restricted. -/
def specRestrictEntries : List (String × JSVal) → Nat → List (String × JSVal)
  | [], _ => []
  | _, 0 => []
  | (k, v) :: rest, b + 1 => (k, specRestrict v) :: specRestrictEntries rest b

end

/-- Written from the claim wording of C3, not from the source: an object's
entry budget "applying to the first 8 attempted entries, skip-on-null, and
no backfill" — i.e. only the first 8 entries are attempted at all, and of
those the ones converting to `null` are skipped. -/
def claimObjectEntries (entries : List (String × JSVal)) (depth : Nat) :
    List (String × SVal) :=
  (entries.take 8).filterMap fun kv =>
    (toSerializableValue kv.2 (depth + 1)).map fun s => (kv.1, s)

/-- Number of entries at the top level of a converter result (used to
separate unequal values without a `DecidableEq` instance on `SVal`). -/
def topEntryCount : SVal → Nat
  | .arr xs => xs.length
  | .obj es => es.length
  | _ => 0

-- -----------------------------------------------------------------------------
-- String utilities (src/src/grabr.ts lines 614-675)
-- -----------------------------------------------------------------------------

/-- The JS whitespace class used by `String.prototype.trim` and `\s`:
space, tab, line feed, carriage return, vertical tab, form feed, NBSP and
the BOM (the Unicode space separators beyond NBSP are omitted; no embedded
input uses them). -/
def jsWs (c : Char) : Bool :=
  c = ' ' || c = '\t' || c = '\n' || c = '\r' ||
  c = Char.ofNat 11 || c = Char.ofNat 12 || c = Char.ofNat 160 ||
  c = Char.ofNat 65279

/-- `text.trim()`: strip `jsWs` characters from both ends. -/
def jsTrimList (l : List Char) : List Char :=
  ((l.dropWhile jsWs).reverse.dropWhile jsWs).reverse

/-- `.replace(/\s+/g, " ")`: each maximal run of whitespace becomes one
space. -/
def collapseRuns : List Char → List Char
  | [] => []
  | c :: rest =>
    if jsWs c then ' ' :: collapseRuns (rest.dropWhile jsWs)
    else c :: collapseRuns rest
termination_by l => l.length
decreasing_by
  · exact Nat.lt_succ_of_le (List.dropWhile_sublist jsWs).length_le
  · simp

/-- The whitespace normalisation `text.trim().replace(/\s+/g, " ")`
computed by `truncateText`. -/
def normalizeWs (text : String) : String :=
  String.mk (collapseRuns (jsTrimList text.data))

/-- `truncateText` from src/src/grabr.ts lines 618-624. `limit` is a
natural number (every call site passes a non-negative literal), so
`trimmed.slice(0, limit)` is `List.take limit`. -/
def truncateText (text : String) (limit : Nat) : String :=
  let trimmed := normalizeWs text
  if trimmed.length ≤ limit then trimmed
  else String.mk (trimmed.data.take limit) ++ "…"

-- -----------------------------------------------------------------------------
-- DOM element model
-- -----------------------------------------------------------------------------

/-- `el.getBoundingClientRect()`. Coordinates are modelled as `Int` (JS
floats; none of the embedded code does fractional arithmetic on them, and
`Math.round` is the identity on integers). -/
structure Rect where
  left : Int
  top : Int
  width : Int
  height : Int
deriving Repr, DecidableEq

/-- The read-only accessors of one DOM element. `ref` models JS reference
identity (two distinct live elements have distinct refs). `attrs` backs
`getAttribute`; `computedStyle` backs `window.getComputedStyle(el)`;
`textContent` is stored directly (in the DOM it covers all descendants). -/
structure ElemCore where
  ref : Nat
  tagName : String
  id : String
  className : String
  classList : List String
  attrs : List (String × String)
  textContent : Option String
  rect : Rect
  computedStyle : List (String × String)
  isButton : Bool
  isAnchor : Bool
  isConnected : Bool
  containedInDoc : Bool
deriving Repr, DecidableEq

/-- A DOM subtree: an element and its element children in order. -/
inductive ETree where
  | node : ElemCore → List ETree → ETree

def ETree.core : ETree → ElemCore
  | .node c _ => c

def ETree.childTrees : ETree → List ETree
  | .node _ cs => cs

/-- One ancestor level of a zipper: the ancestor element's own accessors and
the sibling subtrees to the left and right of the focused child. -/
structure AncestorCtx where
  core : ElemCore
  left : List ETree
  right : List ETree

/-- A DOM element in place: its subtree plus the ancestor chain (nearest
first). This zipper gives total `parentElement` / sibling navigation. -/
structure Elem where
  tree : ETree
  ancestors : List AncestorCtx

def Elem.core (el : Elem) : ElemCore :=
  el.tree.core

/-- `el.parentElement`. -/
def Elem.parentElement (el : Elem) : Option Elem :=
  match el.ancestors with
  | [] => none
  | a :: rest => some ⟨.node a.core (a.left ++ el.tree :: a.right), rest⟩

/-- `el.getAttribute(name)`. -/
def getAttr (c : ElemCore) (name : String) : Option String :=
  (c.attrs.find? fun kv => kv.1 == name).map fun kv => kv.2

/-- `text.trim()` on a string. -/
def jsTrim (s : String) : String :=
  String.mk (jsTrimList s.data)

-- -----------------------------------------------------------------------------
-- Context schema (ElementContextV2 and friends)
-- -----------------------------------------------------------------------------

/-- `SourceLocation`. The TS string-literal unions `SourceConfidence` and
`SourceOrigin` are modelled as `String`. -/
structure SourceLocation where
  fileName : String
  lineNumber : Option Int
  columnNumber : Option Int
  confidence : String
  origin : String
deriving Repr, DecidableEq

structure DomNodeSummary where
  tag : String
  id : Option String
  dataTestId : Option String
  classes : List String
  textSnippet : Option String
deriving Repr, DecidableEq

structure SiblingSummary where
  index : Nat
  total : Nat
  previous : Option DomNodeSummary
  next : Option DomNodeSummary
deriving Repr, DecidableEq

/-- `tagCounts` models a JS object used as a map: entries in first-insertion
order. -/
structure ChildSummary where
  totalChildren : Nat
  tagCounts : List (String × Nat)
  samples : List DomNodeSummary
deriving Repr, DecidableEq

structure SelectorInfo where
  preferred : String
  all : List String
deriving Repr, DecidableEq

structure DomNeighborhood where
  snippet : String
  parents : List DomNodeSummary
  siblings : SiblingSummary
  children : ChildSummary
  selectors : SelectorInfo
deriving Repr, DecidableEq

structure BoundingBox where
  x : Int
  y : Int
  width : Int
  height : Int
deriving Repr, DecidableEq

structure SelectionIdentity where
  tag : String
  id : Option String
  dataTestId : Option String
  role : Option String
  classes : List String
deriving Repr, DecidableEq

structure SelectionInfo where
  tag : String
  boundingBox : BoundingBox
  identity : SelectionIdentity
  componentDisplayName : Option String
  nearestSource : Option SourceLocation
  isLikelyServerComponent : Option Bool
deriving Repr, DecidableEq

/-- `ComponentFlags`; the `boolean | null` fields are `Option Bool`
(`none` = JS `null`). -/
structure ComponentFlags where
  isHost : Bool
  isComposite : Bool
  isSuspenseBoundary : Option Bool
  isErrorBoundary : Option Bool
  isServerComponent : Option Bool
  isLayoutLike : Option Bool
deriving Repr, DecidableEq

structure PropHighlight where
  name : String
  value : Option SVal
  reason : String

structure PropsSnapshot where
  totalProps : Nat
  highlighted : List PropHighlight

structure StateSnapshotEntry where
  hookIndex : Nat
  value : Option SVal

structure StateSnapshot where
  totalHooks : Nat
  entries : List StateSnapshotEntry

structure ContextEntry where
  index : Nat
  value : Option SVal

structure ContextSnapshot where
  totalContexts : Nat
  entries : List ContextEntry

structure ReactComponentFrame where
  displayName : Option String
  isHost : Bool
  source : Option SourceLocation
  flags : ComponentFlags
deriving Repr, DecidableEq

structure ReactTreeSlice where
  stack : List ReactComponentFrame
  ownerIndex : Option Nat
  ownerProps : Option PropsSnapshot
  ownerState : Option StateSnapshot
  ownerContexts : Option ContextSnapshot

structure LayoutStyles where
  display : Option String
  position : Option String
  flexDirection : Option String
  justifyContent : Option String
  alignItems : Option String
  gap : Option String
  gridTemplateColumns : Option String
  gridTemplateRows : Option String
deriving Repr, DecidableEq

structure SpacingStyles where
  margin : Option String
  padding : Option String
deriving Repr, DecidableEq

structure SizeStyles where
  width : Option String
  height : Option String
deriving Repr, DecidableEq

structure TypographyStyles where
  fontFamily : Option String
  fontSize : Option String
  fontWeight : Option String
  lineHeight : Option String
deriving Repr, DecidableEq

structure ColorStyles where
  color : Option String
  backgroundColor : Option String
  borderColor : Option String
deriving Repr, DecidableEq

structure MatchedRuleSummary where
  selector : String
  origin : String
  specificity : String
  importantCount : Int
deriving Repr, DecidableEq

/-- `StyleFrame`; `ruleSummaries` is an optional field in TS, hence
`Option`. -/
structure StyleFrame where
  layout : LayoutStyles
  spacing : SpacingStyles
  size : SizeStyles
  typography : TypographyStyles
  colors : ColorStyles
  clickable : Bool
  ruleSummaries : Option (List MatchedRuleSummary)
deriving Repr, DecidableEq

structure EventHandlerInfo where
  propName : String
  inferredKind : String
  functionName : Option String
  declaredOnComponent : Option String
  source : Option SourceLocation
  comment : Option String
  inferenceSource : String
deriving Repr, DecidableEq

structure BehaviorContext where
  inferenceLevel : String
  handlers : List EventHandlerInfo
deriving Repr, DecidableEq

structure DataSourceHint where
  kind : String
  identifier : Option String
  description : Option String
deriving Repr, DecidableEq

/-- `routeParamsGuess` models a JS object used as a map: entries in
insertion order. -/
structure FrameworkDetectionResult where
  framework : String
  routePatternGuess : Option String
  routeParamsGuess : Option (List (String × String))
  pageComponent : Option SourceLocation
  layoutComponents : List SourceLocation
deriving Repr, DecidableEq

structure AppContext where
  url : String
  pathname : String
  search : String
  hash : String
  framework : String
  routePatternGuess : Option String
  routeParamsGuess : Option (List (String × String))
  pageComponent : Option SourceLocation
  layoutComponents : List SourceLocation
  dataSources : List DataSourceHint
deriving Repr, DecidableEq

structure TestHint where
  type : String
  location : SourceLocation
  description : Option String
deriving Repr, DecidableEq

structure TestsBlock where
  hints : List TestHint
deriving Repr, DecidableEq

structure ReactDebugInfo where
  buildType : String
  inspectorStatus : String
  message : Option String
deriving Repr, DecidableEq

/-- `ElementContextV2`: the six mandatory facets plus the optional `react`
slice and `tests` block. `version` is the literal `2` in the source. -/
structure ElementContextV2 where
  version : Nat
  selection : SelectionInfo
  dom : DomNeighborhood
  react : Option ReactTreeSlice
  reactDebug : ReactDebugInfo
  styling : StyleFrame
  behavior : BehaviorContext
  app : AppContext
  tests : Option TestsBlock

structure GrabrSession where
  id : String
  createdAt : String
  url : String
  userInstruction : Option String
  summary : Option String
  elements : List ElementContextV2

-- -----------------------------------------------------------------------------
-- Heuristic strategies and runtime config
-- -----------------------------------------------------------------------------

structure FrameworkDetectionInput where
  reactSlice : Option ReactTreeSlice
  url : String
  pathname : String

structure FrameworkDetectionStrategy where
  id : String
  detect : FrameworkDetectionInput → Option FrameworkDetectionResult

structure DataSourceDetectionInput where
  ownerProps : Option PropsSnapshot

structure DataSourceDetectionStrategy where
  id : String
  detect : DataSourceDetectionInput → List DataSourceHint

structure GrabrHeuristics where
  frameworkStrategies : List FrameworkDetectionStrategy
  dataSourceStrategies : List DataSourceDetectionStrategy

/-- `GrabrRuntimeConfig`. `reactInspectorMode` is a `String` (the TS union
is erased at runtime, and the point of claim C9 is that invalid strings can
reach the engine); `maxReactStackFrames` is an `Int` (JS number; every
comparison the source performs on it is integral). -/
structure GrabrRuntimeConfig where
  reactInspectorMode : String
  maxReactStackFrames : Int
  heuristics : GrabrHeuristics

/-- `Partial<GrabrRuntimeConfig>` as consumed by `mergeRuntimeConfig`. -/
structure PartialRuntimeConfig where
  reactInspectorMode : Option String
  maxReactStackFrames : Option Int
  heuristics : Option GrabrHeuristics

/-- `pattern` is a prefix of the second list (structural, so that closed
terms reduce in the kernel). -/
def listStartsWith [BEq a] : List a → List a → Bool
  | [], _ => true
  | _ :: _, [] => false
  | x :: xs, y :: ys => x == y && listStartsWith xs ys

/-- `pattern` occurs as a contiguous run of the second list. -/
def listHasInfix [BEq a] (pat : List a) : List a → Bool
  | [] => pat.isEmpty
  | x :: rest => listStartsWith pat (x :: rest) || listHasInfix pat rest

/-- JS `s.startsWith(pat)`. -/
def jsStartsWith (s pat : String) : Bool :=
  listStartsWith pat.data s.data

/-- JS `s.endsWith(pat)`. -/
def jsEndsWith (s pat : String) : Bool :=
  listStartsWith pat.data.reverse s.data.reverse

/-- JS `s.toLowerCase()` (ASCII-adequate, like `Char.toLower`). -/
def jsToLower (s : String) : String :=
  String.mk (s.data.map Char.toLower)

def splitCharAux (sep : Char) : List Char → List Char → List String
  | [], acc => [String.mk acc.reverse]
  | c :: rest, acc =>
    if c == sep then String.mk acc.reverse :: splitCharAux sep rest []
    else splitCharAux sep rest (c :: acc)

/-- JS `s.split(sep)` for a one-character separator. -/
def jsSplitOnChar (sep : Char) (s : String) : List String :=
  splitCharAux sep s.data []

/-- `sub` occurs as a substring of `s` (JS `String.prototype.includes`). -/
def jsIncludes (s sub : String) : Bool :=
  listHasInfix sub.data s.data

def inferFrameworkFromPath (path : String) : String :=
  if jsIncludes path "/app/" then "next-app"
  else if jsIncludes path "/pages/" then "next-pages"
  else if jsIncludes path "react-router" then "react-router"
  else if jsIncludes path "remix" then "remix"
  else "unknown"

def isLayoutLikeFromPath (path : String) : Bool :=
  jsEndsWith path "/layout.tsx" || jsEndsWith path "/layout.jsx" ||
  jsEndsWith path "/_layout.tsx" || jsEndsWith path "/_layout.jsx"

def isPageLikeFromPath (path : String) : Bool :=
  jsEndsWith path "/page.tsx" || jsEndsWith path "/page.jsx" ||
  jsEndsWith path "/index.tsx" || jsEndsWith path "/index.jsx"

/-- The frame loop of `nextLikeFrameworkStrategy.detect`: frames without a
source are skipped; the first non-unknown framework classification sticks;
layout-like sources are collected in order; the first page-like source
wins. Accumulator: (framework, layoutComponents, pageComponent). -/
def nextLikeScanStep (acc : String × List SourceLocation × Option SourceLocation)
    (frame : ReactComponentFrame) : String × List SourceLocation × Option SourceLocation :=
  match frame.source with
  | none => acc
  | some source =>
    let path := source.fileName
    let framework := if acc.1 == "unknown" then inferFrameworkFromPath path else acc.1
    let layouts := if isLayoutLikeFromPath path then acc.2.1 ++ [source] else acc.2.1
    let page := if acc.2.2.isNone && isPageLikeFromPath path then some source else acc.2.2
    (framework, layouts, page)

def nextLikeScan (stack : List ReactComponentFrame) :
    String × List SourceLocation × Option SourceLocation :=
  stack.foldl nextLikeScanStep ("unknown", [], none)

/-- The `segments.forEach` loop building `patternSegments` and
`routeParamsGuess` (src/src/grabr.ts lines 470-482), as a recursion carrying
the running segment index. -/
def routeSegmentsLoop : Nat → List String → List String × List (String × String)
  | _, [] => ([], [])
  | idx, seg :: rest =>
    let (pats, params) := routeSegmentsLoop (idx + 1) rest
    if seg.length > 0 && seg.data.all (fun c => c.isDigit) then
      (("[id" ++ toString idx ++ "]") :: pats, ("id" ++ toString idx, seg) :: params)
    else if seg.length > 2 && seg == jsToLower seg then
      (seg :: pats, params)
    else
      (("[param" ++ toString idx ++ "]") :: pats, ("param" ++ toString idx, seg) :: params)

/-- `nextLikeFrameworkStrategy.detect` (src/src/grabr.ts lines 435-496). -/
def nextLikeDetect (input : FrameworkDetectionInput) : Option FrameworkDetectionResult :=
  match input.reactSlice with
  | none => none
  | some slice =>
    let scanned := nextLikeScan slice.stack
    let framework := scanned.1
    let layoutComponents := scanned.2.1
    let pageComponent := scanned.2.2
    if framework == "unknown" && pageComponent.isNone && layoutComponents.isEmpty then
      none
    else
      let isNextLike := framework == "next-app" || framework == "next-pages"
      let segments := (jsSplitOnChar '/' input.pathname).filter fun s => s.length > 0
      let walked := routeSegmentsLoop 0 segments
      let routePatternGuess :=
        if isNextLike then some ("/" ++ String.intercalate "/" walked.1) else none
      let params := if isNextLike then walked.2 else []
      some {
        framework := framework
        routePatternGuess := routePatternGuess
        routeParamsGuess := if params.length > 0 then some params else none
        pageComponent := pageComponent
        layoutComponents := layoutComponents
      }

def nextLikeFrameworkStrategy : FrameworkDetectionStrategy :=
  ⟨"next-like", nextLikeDetect⟩

/-- `genericFrameworkStrategy` (always returns the unknown result). -/
def genericFrameworkStrategy : FrameworkDetectionStrategy :=
  ⟨"generic", fun _ => some {
    framework := "unknown"
    routePatternGuess := none
    routeParamsGuess := none
    pageComponent := none
    layoutComponents := []
  }⟩

/-- `basicDataSourceStrategy` (src/src/grabr.ts lines 514-559). -/
def basicDataSourceDetect (input : DataSourceDetectionInput) : List DataSourceHint :=
  let propNames := (input.ownerProps.map fun p => p.highlighted.map fun h => h.name).getD []
  let lowerNames := propNames.map jsToLower
  let hasData := lowerNames.contains "data"
  let hasIsLoading := lowerNames.contains "isloading" || lowerNames.contains "loading"
  let hasError := lowerNames.contains "error"
  let hints :=
    (if hasData && hasIsLoading && hasError then
      [⟨"react-query", none,
        some "Props suggest React Query-like async data (data/loading/error)."⟩]
     else []) ++
    (if lowerNames.any (fun p => jsIncludes p "swr") then
      [(⟨"swr", none, some "Props mention SWR, likely SWR-based data."⟩ : DataSourceHint)]
     else []) ++
    (if lowerNames.any (fun p => jsIncludes p "selector") then
      [(⟨"redux", none, some "Selector-like props hint at Redux selectors."⟩ : DataSourceHint)]
     else [])
  if hints.length == 0 then [⟨"unknown", none, none⟩] else hints

def basicDataSourceStrategy : DataSourceDetectionStrategy :=
  ⟨"basic-data-props", basicDataSourceDetect⟩

def defaultHeuristics : GrabrHeuristics :=
  ⟨[nextLikeFrameworkStrategy, genericFrameworkStrategy], [basicDataSourceStrategy]⟩

def defaultRuntimeConfig : GrabrRuntimeConfig :=
  ⟨"best-effort", 8, defaultHeuristics⟩

/-- `mergeRuntimeConfig` (src/src/grabr.ts lines 589-608). -/
def mergeRuntimeConfig (overrides : Option PartialRuntimeConfig) : GrabrRuntimeConfig :=
  match overrides with
  | none => defaultRuntimeConfig
  | some p => {
      reactInspectorMode := p.reactInspectorMode.getD defaultRuntimeConfig.reactInspectorMode
      maxReactStackFrames := p.maxReactStackFrames.getD defaultRuntimeConfig.maxReactStackFrames
      heuristics := {
        frameworkStrategies :=
          ((p.heuristics.map fun h => h.frameworkStrategies).getD
            defaultHeuristics.frameworkStrategies)
        dataSourceStrategies :=
          ((p.heuristics.map fun h => h.dataSourceStrategies).getD
            defaultHeuristics.dataSourceStrategies)
      }
    }

/-- `validateRuntimeConfigOrThrow` (src/src/grabr.ts lines 2174-2194);
throwing is `Except.error` with the thrown message. `Number.isFinite` and
`Number.isInteger` always hold for an `Int`, so `isFiniteIntegerInRange`
reduces to the range check. -/
def validateRuntimeConfigOrThrow (config : GrabrRuntimeConfig) : Except String Unit :=
  if config.reactInspectorMode ≠ "best-effort" && config.reactInspectorMode ≠ "required" &&
      config.reactInspectorMode ≠ "off" then
    .error ("Invalid config.reactInspectorMode: expected \"best-effort\" | \"required\" | \"off\", got "
      ++ config.reactInspectorMode)
  else if ¬(config.maxReactStackFrames ≥ 1 ∧ config.maxReactStackFrames ≤ 64) then
    .error ("Invalid config.maxReactStackFrames: expected integer in range [1, 64], got "
      ++ toString config.maxReactStackFrames)
  else
    .ok ()

-- -----------------------------------------------------------------------------
-- DOM summarizer (src/src/grabr.ts lines 618-768)
-- -----------------------------------------------------------------------------

/-- `summarizeTextContent`. -/
def summarizeTextContent (c : ElemCore) : Option String :=
  match c.textContent with
  | none => none
  | some text =>
    let summarized := truncateText text 80
    if summarized.length = 0 then none else some summarized

/-- `getDataTestId`. -/
def getDataTestId (c : ElemCore) : Option String :=
  match (getAttr c "data-testid").orElse fun _ => getAttr c "data-test-id" with
  | none => none
  | some value =>
    let trimmed := jsTrim value
    if trimmed.length = 0 then none else some trimmed

/-- `buildPreferredSelector` (src/src/grabr.ts lines 645-675). `esc` is the
platform primitive `CSS.escape`, passed in because its code is not part of
this repository. The source's sibling `while` loop walks the parent's
children from the first child, counting same-tag siblings, and breaks on
reference equality with `el`; in the zipper that is a count over the left
siblings. -/
def buildPreferredSelector (esc : String → String) (el : Elem) : String :=
  let c := el.core
  if c.id ≠ "" && !(c.id.data.contains ' ') then
    "#" ++ esc c.id
  else
    match getDataTestId c with
    | some dataTestId => "[data-testid=\"" ++ esc dataTestId ++ "\"]"
    | none =>
      let classes := c.classList.filter fun cls => cls.length > 0
      let baseTag := jsToLower c.tagName
      if classes.length > 0 then
        baseTag ++ "." ++ String.intercalate "." (classes.map esc)
      else
        match el.ancestors with
        | [] => baseTag
        | a :: _ =>
          let index := 1 + (a.left.filter fun t => t.core.tagName == c.tagName).length
          baseTag ++ ":nth-of-type(" ++ toString index ++ ")"

/-- The `while (current && depth < maxDepth)` loop of
`buildAncestorSelectorPath`; `unshift` prepends, so the accumulator ends up
root-to-leaf. -/
def ancestorPathLoop (esc : String → String) :
    Option Elem → Nat → Nat → List String → List String
  | none, _, _, segments => segments
  | some el, depth, maxDepth, segments =>
    if h : depth < maxDepth then
      ancestorPathLoop esc el.parentElement (depth + 1) maxDepth
        (buildPreferredSelector esc el :: segments)
    else segments
termination_by _ depth maxDepth _ => maxDepth - depth

/-- `buildAncestorSelectorPath`. -/
def buildAncestorSelectorPath (esc : String → String) (el : Elem) (maxDepth : Nat) : String :=
  String.intercalate " > " (ancestorPathLoop esc (some el) 0 maxDepth [])

/-- `summarizeDomNode` (works on the accessor record only). -/
def summarizeDomNode (c : ElemCore) : DomNodeSummary := {
  tag := jsToLower c.tagName
  id := if c.id ≠ "" then some c.id else none
  dataTestId := getDataTestId c
  classes := c.classList
  textSnippet := summarizeTextContent c
}

/-- `summarizeSiblings`. `Array.from(parent.children)` is
`left ++ [el] ++ right` in the zipper and `siblings.indexOf(el)` is
`left.length`. -/
def summarizeSiblings (el : Elem) : SiblingSummary :=
  match el.ancestors with
  | [] => { index := 0, total := 1, previous := none, next := none }
  | a :: _ =>
    let total := a.left.length + 1 + a.right.length
    let index := a.left.length
    {
      index := index
      total := total
      previous := if index > 0 then (a.left.getLast?).map fun t => summarizeDomNode t.core
                  else none
      next := if index < total - 1 then (a.right.head?).map fun t => summarizeDomNode t.core
              else none
    }

/-- The `tagCounts[tag] = (tagCounts[tag] ?? 0) + 1` update on an
insertion-ordered JS object map. -/
def bumpCount : List (String × Nat) → String → List (String × Nat)
  | [], tag => [(tag, 1)]
  | (k, n) :: rest, tag =>
    if k == tag then (k, n + 1) :: rest else (k, n) :: bumpCount rest tag

/-- `summarizeChildren` (MAX_CHILD_SAMPLES = 5). -/
def summarizeChildren (el : Elem) : ChildSummary :=
  let children := el.tree.childTrees.map ETree.core
  {
    totalChildren := children.length
    tagCounts := children.foldl (fun m c => bumpCount m (jsToLower c.tagName)) []
    samples := (children.take 5).map summarizeDomNode
  }

/-- `serializeElementSnippet`. -/
def serializeElementSnippet (c : ElemCore) : String :=
  let tag := jsToLower c.tagName
  let attrs : List String :=
    (if c.id ≠ "" then ["id=\"" ++ c.id ++ "\""] else []) ++
    (let className := jsTrim c.className
     if className.length > 0 then ["class=\"" ++ truncateText c.className 40 ++ "\""] else []) ++
    (match getDataTestId c with
     | some dataTestId => ["data-testid=\"" ++ dataTestId ++ "\""]
     | none => [])
  let attrString := if attrs.length > 0 then " " ++ String.intercalate " " attrs else ""
  let text := summarizeTextContent c
  "<" ++ tag ++ attrString ++ ">" ++ text.getD "" ++ "</" ++ tag ++ ">"

/-- `buildDomNeighborhood` (MAX_PARENT_DEPTH = 4); the parent `while` loop
visits the nearest `4` ancestors. -/
def buildDomNeighborhood (esc : String → String) (el : Elem) : DomNeighborhood :=
  let snippet := serializeElementSnippet el.core
  let parents := (el.ancestors.take 4).map fun a => summarizeDomNode a.core
  let siblings := summarizeSiblings el
  let children := summarizeChildren el
  let preferred := buildPreferredSelector esc el
  let path := buildAncestorSelectorPath esc el 5
  {
    snippet := snippet
    parents := parents
    siblings := siblings
    children := children
    selectors := { preferred := preferred, all := [preferred, path] }
  }

-- -----------------------------------------------------------------------------
-- bippy environment and the extraction engine
-- -----------------------------------------------------------------------------

/-- An opaque fiber handle. -/
def Fiber := Nat
deriving instance DecidableEq, Repr for Fiber

/-- A raw source record as returned by `bippy/source`'s `getSource`
(`SourceLike` in the TS code). -/
structure SourceLike where
  fileName : Option String
  lineNumber : Option Int
  columnNumber : Option Int
deriving Repr, DecidableEq

/-- The bippy introspection capability surface. Functions that can throw in
JS return `Except String`; `getDisplayName`, `isHostFiber`,
`isCompositeFiber` and the `tag` property read are modelled as total (the
claims under verification only hypothesise about throws from the lookup,
walk and traversal capabilities). -/
structure BippyEnv where
  renderers : List Nat
  detectReactBuildType : Nat → Except String String
  hasRDTHook : Bool
  isInstrumentationActive : Bool
  getFiberFromHostInstance : Nat → Except String (Option Fiber)
  getLatestFiber : Fiber → Except String Fiber
  getFiberStack : Fiber → Except String (List Fiber)
  getSource : Fiber → Except String (Option SourceLike)
  getDisplayName : Fiber → Option String
  isHostFiber : Fiber → Bool
  isCompositeFiber : Fiber → Bool
  fiberTag : Fiber → Option Int
  traverseProps : Fiber → Except String (List (String × JSVal))
  traverseState : Fiber → Except String (List JSVal)
  traverseContexts : Fiber → Except String (List JSVal)

/-- `window` / `document` presence and `window.location`. -/
structure WindowEnv where
  hasWindow : Bool
  hasDocument : Bool
  hasGetComputedStyle : Bool
  href : String
  pathname : String
  search : String
  hash : String

/-- The full external environment of the embedded code. -/
structure Env where
  bippy : BippyEnv
  win : WindowEnv
  cssEscape : String → String

/-- `detectReactBuildTypeSafe`: `getAnyRenderer` yields the first renderer;
every throw is caught and mapped to "unknown". -/
def detectReactBuildTypeSafe (env : Env) : String :=
  match env.bippy.renderers.head? with
  | none => "unknown"
  | some renderer =>
    match env.bippy.detectReactBuildType renderer with
    | .error _ => "unknown"
    | .ok result =>
      if result == "development" || result == "production" then result else "unknown"

/-- `getReactDebugInfoForElement` (src/src/grabr.ts lines 930-974); the
fiber lookup throw is caught and becomes status "error". -/
def getReactDebugInfoForElement (env : Env) (el : Elem) : ReactDebugInfo :=
  let buildType := detectReactBuildTypeSafe env
  if !env.bippy.hasRDTHook then
    ⟨buildType, "no-hook",
      some "React DevTools hook is not installed. Import 'bippy' before React to enable React metadata."⟩
  else if !env.bippy.isInstrumentationActive then
    ⟨buildType, "inactive",
      some "React instrumentation is not active yet. Ensure 'bippy' is imported before React renders."⟩
  else
    match env.bippy.getFiberFromHostInstance el.core.ref with
    | .error _ =>
      ⟨buildType, "error",
        some "Failed to access React fiber for this element. Instrumentation may be incompatible."⟩
    | .ok none =>
      ⟨buildType, "no-fiber", some "No React fiber associated with this element (non-React DOM)."⟩
    | .ok (some _) => ⟨buildType, "ok", none⟩

/-- `toSourceLocation` (src/src/grabr.ts lines 777-803); note `!source.fileName`
is falsy for the empty string. -/
def toSourceLocation (source : Option SourceLike) (buildType : String) : Option SourceLocation :=
  match source with
  | none => none
  | some src =>
    match src.fileName with
    | none => none
    | some fileName =>
      if fileName == "" then none
      else some {
        fileName := fileName
        lineNumber := src.lineNumber
        columnNumber := src.columnNumber
        confidence :=
          if buildType == "development" then "high"
          else if buildType == "production" then "low" else "medium"
        origin := "bippy"
      }

/-- `classifyPropHighlight` (src/src/grabr.ts lines 851-885); `none` means
the TS `null` return. -/
def classifyPropHighlight (name : String) (value : Option SVal) : Option String :=
  let lower := jsToLower name
  if lower == "label" || lower == "title" || lower == "placeholder" || lower == "text" ||
      lower == "children" then some "text"
  else if lower == "variant" || lower == "size" || lower == "intent" || lower == "tone" ||
      lower == "color" || lower == "kind" then some "design"
  else if lower == "data-testid" || lower == "testid" then some "test-id"
  else if lower == "aria-label" then some "aria-label"
  else if value.isNone then none
  else some "other"

/-- `inferEventKindFromPropName` (src/src/grabr.ts lines 887-900). -/
def inferEventKindFromPropName (name : String) : String :=
  let lower := jsToLower name
  if lower == "onclick" then "click"
  else if lower == "onchange" then "change"
  else if lower == "onsubmit" then "submit"
  else if lower == "oninput" then "input"
  else if lower == "onfocus" then "focus"
  else if lower == "onblur" then "blur"
  else if jsStartsWith lower "onkey" then "key"
  else if jsStartsWith lower "onpointer" || jsStartsWith lower "onmouse" then "pointer"
  else "other"

/-- `snapshotProps`: the `traverseProps` visitor accumulates every visited
prop; a throwing capability propagates (no catch in the source). -/
def snapshotProps (env : Env) (fiber : Fiber) : Except String PropsSnapshot := do
  let props ← env.bippy.traverseProps fiber
  let highlighted := props.filterMap fun kv =>
    let serial := toSerializableValue kv.2 0
    (classifyPropHighlight kv.1 serial).map fun reason =>
      ({ name := kv.1, value := serial, reason := reason } : PropHighlight)
  let limitedHighlighted := if highlighted.length > 12 then highlighted.take 12 else highlighted
  pure { totalProps := props.length, highlighted := limitedHighlighted }

/-- `snapshotState`; as with `snapshotProps`, a throwing `traverseState`
propagates. -/
def snapshotState (env : Env) (fiber : Fiber) : Except String StateSnapshot := do
  let hooks ← env.bippy.traverseState fiber
  let entries := hooks.mapIdx fun index next =>
    ({ hookIndex := index, value := toSerializableValue next 0 } : StateSnapshotEntry)
  pure { totalHooks := hooks.length
         entries := if entries.length > 12 then entries.take 12 else entries }

/-- `snapshotContexts`; a throwing `traverseContexts` propagates. -/
def snapshotContexts (env : Env) (fiber : Fiber) : Except String ContextSnapshot := do
  let ctxs ← env.bippy.traverseContexts fiber
  let entries := ctxs.mapIdx fun index next =>
    ({ index := index, value := toSerializableValue next 0 } : ContextEntry)
  pure { totalContexts := ctxs.length
         entries := if entries.length > 12 then entries.take 12 else entries }

/-- `Array.prototype.slice(0, end)` for a possibly negative `end`. -/
def jsSliceTo (xs : List α) (endIdx : Int) : List α :=
  if endIdx < 0 then xs.take (((xs.length : Int) + endIdx).toNat)
  else xs.take endIdx.toNat

/-- One frame of the `takenFibers.map` building the stack
(src/src/grabr.ts lines 1017-1045). -/
def buildStackFrame (env : Env) (fiber : Fiber) (source : Option SourceLocation) :
    ReactComponentFrame :=
  let displayName := env.bippy.getDisplayName fiber
  let tag := env.bippy.fiberTag fiber
  let isHost := env.bippy.isHostFiber fiber
  let isComposite := env.bippy.isCompositeFiber fiber
  let fileName := (source.map fun s => s.fileName).getD ""
  {
    displayName := displayName
    isHost := isHost
    source := source
    flags := {
      isHost := isHost
      isComposite := isComposite
      isSuspenseBoundary :=
        if tag.isSome && fileName.length > 0 && jsIncludes fileName "Suspense" then some true
        else none
      isErrorBoundary := displayName.map fun n => jsIncludes n "ErrorBoundary"
      isServerComponent :=
        if jsIncludes fileName ".server." || jsIncludes fileName "/app/" then some true
        else none
      isLayoutLike := some (isLayoutLikeFromPath fileName)
    }
  }

/-- `buildReactTreeSlice` (src/src/grabr.ts lines 977-1089). Only the
`getFiberFromHostInstance` call and the per-frame `getSource` calls sit in
a `try/catch`; `getLatestFiber`, `getFiberStack` and the three owner
snapshots propagate throws. -/
def buildReactTreeSlice (env : Env) (el : Elem) (config : GrabrRuntimeConfig)
    (debugInfo : ReactDebugInfo) : Except String (Option ReactTreeSlice) := do
  if config.reactInspectorMode == "off" then
    return none
  if debugInfo.inspectorStatus ≠ "ok" then
    return none
  match env.bippy.getFiberFromHostInstance el.core.ref with
  | .error _ => return none
  | .ok none => return none
  | .ok (some hostFiber) =>
    let latest ← env.bippy.getLatestFiber hostFiber
    let stackFibers ← env.bippy.getFiberStack latest
    if stackFibers.length == 0 then
      return none
    let takenFibers := jsSliceTo stackFibers config.maxReactStackFrames
    let sources := takenFibers.map fun fiber =>
      match env.bippy.getSource fiber with
      | .error _ => none
      | .ok location => toSourceLocation location debugInfo.buildType
    let stack := takenFibers.mapIdx fun index fiber =>
      buildStackFrame env fiber ((sources.get? index).getD none)
    match takenFibers.findIdx? env.bippy.isCompositeFiber with
    | none =>
      return some { stack := stack, ownerIndex := none, ownerProps := none,
                    ownerState := none, ownerContexts := none }
    | some ownerIndex =>
      match takenFibers.get? ownerIndex with
      | none =>
        return some { stack := stack, ownerIndex := none, ownerProps := none,
                      ownerState := none, ownerContexts := none }
      | some ownerFiber => do
        let ownerProps ← snapshotProps env ownerFiber
        let ownerState ← snapshotState env ownerFiber
        let ownerContexts ← snapshotContexts env ownerFiber
        return some { stack := stack, ownerIndex := some ownerIndex,
                      ownerProps := some ownerProps, ownerState := some ownerState,
                      ownerContexts := some ownerContexts }

/-- One visitor invocation of `recordHandlersFromFiber`
(src/src/grabr.ts lines 1164-1190): accumulator is (seenNames, handlers).
`typeof fn.name === "string"` always holds for the modelled `func`. -/
def recordHandlersStep (declaredOnComponent : Option String) (source : Option SourceLocation)
    (acc : List String × List EventHandlerInfo) (kv : String × JSVal) :
    List String × List EventHandlerInfo :=
  let name := kv.1
  if !(jsStartsWith name "on") then acc
  else if acc.1.contains name then acc
  else
    match kv.2 with
    | .func fnName0 =>
      let functionName := if fnName0.length > 0 then some fnName0 else none
      let kind := inferEventKindFromPropName name
      let comment := "Handler " ++ name ++ " likely handles " ++ kind ++ " events on this element."
      (name :: acc.1,
       acc.2 ++ [{
         propName := name
         inferredKind := kind
         functionName := functionName
         declaredOnComponent := declaredOnComponent
         source := source
         comment := some comment
         inferenceSource := "prop-name"
       }])
    | _ => acc

/-- `recordHandlersFromFiber`: a null fiber is skipped; a throwing
`traverseProps` propagates. -/
def recordHandlersFromFiber (env : Env) (fiber? : Option Fiber)
    (declaredOnComponent : Option String) (source : Option SourceLocation)
    (acc : List String × List EventHandlerInfo) :
    Except String (List String × List EventHandlerInfo) :=
  match fiber? with
  | none => .ok acc
  | some fiber => do
    let props ← env.bippy.traverseProps fiber
    pure (props.foldl (recordHandlersStep declaredOnComponent source) acc)

/-- `buildBehaviorContext` (src/src/grabr.ts lines 1149-1220). The fiber
lookup is caught; `getFiberStack(getLatestFiber(hostFiber))` and the
traversals are not. -/
def buildBehaviorContext (env : Env) (el : Elem) (reactSlice : Option ReactTreeSlice) :
    Except String BehaviorContext := do
  let hostFiber? :=
    match env.bippy.getFiberFromHostInstance el.core.ref with
    | .error _ => none
    | .ok f => f
  match hostFiber? with
  | none => pure { inferenceLevel := "none", handlers := [] }
  | some hostFiber => do
    let latest ← env.bippy.getLatestFiber hostFiber
    let stackFibers ← env.bippy.getFiberStack latest
    let headFrame :=
      match reactSlice with
      | some slice => if slice.stack.length > 0 then slice.stack.head? else none
      | none => none
    let source := (headFrame.map fun f => f.source).getD none
    let componentName := (headFrame.map fun f => f.displayName).getD none
    let acc1 ← recordHandlersFromFiber env (some hostFiber) componentName source ([], [])
    let acc2 ←
      match reactSlice with
      | some slice =>
        match slice.ownerIndex with
        | some ownerIndex =>
          let ownerFrame := slice.stack.get? ownerIndex
          let ownerSource := (ownerFrame.map fun f => f.source).getD none
          let ownerName := (ownerFrame.map fun f => f.displayName).getD none
          recordHandlersFromFiber env (stackFibers.get? ownerIndex) ownerName ownerSource acc1
        | none => pure acc1
      | none => pure acc1
    pure { inferenceLevel := if acc2.2.length == 0 then "none" else "prop-name-only"
           handlers := acc2.2 }

/-- `buildSelectionInfo` (src/src/grabr.ts lines 1385-1424). -/
def buildSelectionInfo (el : Elem) (reactSlice : Option ReactTreeSlice) : SelectionInfo :=
  let c := el.core
  let headFrame :=
    match reactSlice with
    | some slice => if slice.stack.length > 0 then slice.stack.head? else none
    | none => none
  {
    tag := jsToLower c.tagName
    boundingBox := { x := c.rect.left, y := c.rect.top,
                     width := c.rect.width, height := c.rect.height }
    identity := {
      tag := jsToLower c.tagName
      id := if c.id ≠ "" then some c.id else none
      dataTestId := getDataTestId c
      role := getAttr c "role"
      classes := c.classList
    }
    componentDisplayName := (headFrame.map fun f => f.displayName).getD none
    nearestSource := (headFrame.map fun f => f.source).getD none
    isLikelyServerComponent := (headFrame.map fun f => f.flags.isServerComponent).getD none
  }

/-- The `get` helper of `buildStyleFrame`: missing property → null,
whitespace-only → null, otherwise the trimmed value. -/
def styleGet (computed : Option (List (String × String))) (prop : String) : Option String :=
  match computed with
  | none => none
  | some styles =>
    match (styles.find? fun kv => kv.1 == prop).map fun kv => kv.2 with
    | none => none
    | some value =>
      let trimmed := jsTrim value
      if trimmed.length = 0 then none else some trimmed

/-- `buildStyleFrame` (src/src/grabr.ts lines 1302-1379). -/
def buildStyleFrame (env : Env) (el : Elem) : StyleFrame :=
  let c := el.core
  let rect := c.rect
  let computed :=
    if env.win.hasWindow && env.win.hasGetComputedStyle then some c.computedStyle else none
  let get := styleGet computed
  let clickable :=
    (match computed with
     | some styles => ((styles.find? fun kv => kv.1 == "cursor").map fun kv => kv.2) == some "pointer"
     | none => false)
    || c.isButton || c.isAnchor
    || getAttr c "role" == some "button" || getAttr c "role" == some "link"
  let marginParts := (get "marginTop", get "marginRight", get "marginBottom", get "marginLeft")
  let paddingParts := (get "paddingTop", get "paddingRight", get "paddingBottom", get "paddingLeft")
  {
    layout := {
      display := get "display"
      position := get "position"
      flexDirection := get "flexDirection"
      justifyContent := get "justifyContent"
      alignItems := get "alignItems"
      gap := get "gap"
      gridTemplateColumns := get "gridTemplateColumns"
      gridTemplateRows := get "gridTemplateRows"
    }
    spacing := {
      margin :=
        if marginParts.1.isNone && marginParts.2.1.isNone && marginParts.2.2.1.isNone &&
            marginParts.2.2.2.isNone then none
        else some (marginParts.1.getD "0" ++ " " ++ marginParts.2.1.getD "0" ++ " " ++
          marginParts.2.2.1.getD "0" ++ " " ++ marginParts.2.2.2.getD "0")
      padding :=
        if paddingParts.1.isNone && paddingParts.2.1.isNone && paddingParts.2.2.1.isNone &&
            paddingParts.2.2.2.isNone then none
        else some (paddingParts.1.getD "0" ++ " " ++ paddingParts.2.1.getD "0" ++ " " ++
          paddingParts.2.2.1.getD "0" ++ " " ++ paddingParts.2.2.2.getD "0")
    }
    size := {
      width := if rect.width > 0 then some (toString rect.width ++ "px") else none
      height := if rect.height > 0 then some (toString rect.height ++ "px") else none
    }
    typography := {
      fontFamily := get "fontFamily"
      fontSize := get "fontSize"
      fontWeight := get "fontWeight"
      lineHeight := get "lineHeight"
    }
    colors := {
      color := get "color"
      backgroundColor := get "backgroundColor"
      borderColor := get "borderColor"
    }
    clickable := clickable
    ruleSummaries := some []
  }

/-- `.find(result => result !== null)` over mapped strategy results. -/
def firstSome : List (Option α) → Option α
  | [] => none
  | some x :: _ => some x
  | none :: rest => firstSome rest

/-- `buildAppContext` (src/src/grabr.ts lines 1226-1296). -/
def buildAppContext (env : Env) (reactSlice : Option ReactTreeSlice)
    (config : GrabrRuntimeConfig) : AppContext :=
  let url := if env.win.hasWindow then env.win.href else ""
  let pathname := if env.win.hasWindow then env.win.pathname else ""
  let search := if env.win.hasWindow then env.win.search else ""
  let hash := if env.win.hasWindow then env.win.hash else ""
  let input : FrameworkDetectionInput := ⟨reactSlice, url, pathname⟩
  let frameworkResult :=
    (firstSome (config.heuristics.frameworkStrategies.map fun s => s.detect input)).getD
      { framework := "unknown", routePatternGuess := none, routeParamsGuess := none,
        pageComponent := none, layoutComponents := [] }
  let dsInput : DataSourceDetectionInput := ⟨(reactSlice.map fun s => s.ownerProps).getD none⟩
  let collected := (config.heuristics.dataSourceStrategies.map fun s => s.detect dsInput).flatten
  {
    url := url
    pathname := pathname
    search := search
    hash := hash
    framework := frameworkResult.framework
    routePatternGuess := frameworkResult.routePatternGuess
    routeParamsGuess := frameworkResult.routeParamsGuess
    pageComponent := frameworkResult.pageComponent
    layoutComponents := frameworkResult.layoutComponents
    dataSources := if collected.length > 0 then collected else [⟨"unknown", none, none⟩]
  }

/-- `DefaultInspectorEngine.getElementContext` (src/src/grabr.ts lines
1473-1498): no `try/catch` of its own, so a throw from the slice or
behavior build rejects the promise. -/
def getElementContext (env : Env) (config : GrabrRuntimeConfig) (el : Elem) :
    Except String ElementContextV2 := do
  let reactDebug := getReactDebugInfoForElement env el
  let reactSlice ←
    if config.reactInspectorMode == "off" then pure none
    else buildReactTreeSlice env el config reactDebug
  let selection := buildSelectionInfo el reactSlice
  let dom := buildDomNeighborhood env.cssEscape el
  let styling := buildStyleFrame env el
  let behavior ← buildBehaviorContext env el reactSlice
  let app := buildAppContext env reactSlice config
  pure {
    version := 2
    selection := selection
    dom := dom
    react := reactSlice
    reactDebug := reactDebug
    styling := styling
    behavior := behavior
    app := app
    tests := none
  }

/-- `DefaultInspectorEngine` holds only its config; its method is
`getElementContext` above. -/
structure InspectorEngine where
  config : GrabrRuntimeConfig

/-- `createInspectorEngine` (src/src/grabr.ts lines 1503-1508): merge and
construct — no validation of any kind. -/
def createInspectorEngine (overrides : Option PartialRuntimeConfig) : InspectorEngine :=
  ⟨mergeRuntimeConfig overrides⟩

def InspectorEngine.capture (engine : InspectorEngine) (env : Env) (el : Elem) :
    Except String ElementContextV2 :=
  getElementContext env engine.config el

/-- The client handle returned by `createGrabrClient` (overlay wiring and
provider registration are interactive DOM effects outside the verified
core). -/
structure GrabrClient where
  version : String
  config : GrabrRuntimeConfig
  engine : InspectorEngine

/-- `createGrabrClient` (src/src/grabr.ts lines 2895-2930): browser check,
merge, eager validation (the only place the config checks run), then
construction; `createInspectorEngine(config)` receives the full config. -/
def createGrabrClient (env : Env) (overrides : Option PartialRuntimeConfig) :
    Except String GrabrClient :=
  if !env.win.hasWindow || !env.win.hasDocument then
    .error "createGrabrClient must be called in a browser environment."
  else do
    let config := mergeRuntimeConfig overrides
    let _ ← validateRuntimeConfigOrThrow config
    let engine := createInspectorEngine (some
      ⟨some config.reactInspectorMode, some config.maxReactStackFrames, some config.heuristics⟩)
    pure { version := "2.2.0", config := config, engine := engine }

-- -----------------------------------------------------------------------------
-- Prompt serializer (src/src/grabr.ts lines 1533-1839)
-- -----------------------------------------------------------------------------

/-- A JSON value as produced by the serializer's `JSON.stringify` calls. -/
inductive JVal where
  | jnull : JVal
  | jbool (b : Bool) : JVal
  | jnum (n : Int) : JVal
  | jstr (s : String) : JVal
  | jarr (xs : List JVal) : JVal
  | jobj (entries : List (String × JVal)) : JVal

/-- Truncation to a signed 32-bit integer (the JS `| 0`). -/
def toInt32 (n : Int) : Int :=
  let m := n % 4294967296
  if m < 2147483648 then m else m - 4294967296

/-- One iteration of `promptChecksum`'s loop:
`hash = (hash << 5) - hash + charCode; hash |= 0`. -/
def promptChecksumStep (hash : Int) (c : Char) : Int :=
  toInt32 (toInt32 (hash * 32) - hash + (c.toNat : Int))

/-- `promptChecksum` (src/src/grabr.ts lines 1533-1540):
`Math.abs(hash >>> 0).toString(16)` — `>>> 0` reinterprets as unsigned, so
`Math.abs` is the identity and the result is lowercase hex. -/
def promptChecksum (input : String) : String :=
  let hash := input.data.foldl promptChecksumStep 0
  String.mk (Nat.toDigits 16 ((hash % 4294967296).toNat))

/-- JSON string escaping as performed by `JSON.stringify`: quote,
backslash, the named control escapes, and `\u00XX` for other control
characters. -/
def jsonEscapeChar (c : Char) : String :=
  if c = '"' then "\\\""
  else if c = '\\' then "\\\\"
  else if c = '\n' then "\\n"
  else if c = '\r' then "\\r"
  else if c = '\t' then "\\t"
  else if c = Char.ofNat 8 then "\\b"
  else if c = Char.ofNat 12 then "\\f"
  else if c.toNat < 32 then
    let digits := Nat.toDigits 16 c.toNat
    "\\u00" ++ (if digits.length = 1 then "0" else "") ++ String.mk digits
  else String.singleton c

def jsonQuote (s : String) : String :=
  "\"" ++ String.join (s.data.map jsonEscapeChar) ++ "\""

mutual

/-- `stringifyForPrompt`'s `JSON.stringify(value, replacer)`
(src/src/grabr.ts lines 1542-1555). With `dropNull`, a `null` object
property is omitted (replacer returns `undefined`), while a `null` array
element still serializes as `null` (JSON.stringify puts `null` for
`undefined` array slots), so arrays encode identically either way. -/
def jsonEncode (dropNull : Bool) : JVal → String
  | .jnull => "null"
  | .jbool b => cond b "true" "false"
  | .jnum n => toString n
  | .jstr s => jsonQuote s
  | .jarr xs => "[" ++ jsonEncodeList dropNull xs ++ "]"
  | .jobj entries => "\x7b" ++ jsonEncodeEntries dropNull entries ++ "\x7d"

def jsonEncodeList (dropNull : Bool) : List JVal → String
  | [] => ""
  | [x] => jsonEncode dropNull x
  | x :: y :: rest => jsonEncode dropNull x ++ "," ++ jsonEncodeList dropNull (y :: rest)

def jsonEncodeEntries (dropNull : Bool) : List (String × JVal) → String
  | [] => ""
  | (k, .jnull) :: rest =>
    if dropNull then jsonEncodeEntries dropNull rest
    else jsonEncodeJoin dropNull (jsonQuote k ++ ":null") rest
  | (k, v) :: rest =>
    jsonEncodeJoin dropNull (jsonQuote k ++ ":" ++ jsonEncode dropNull v) rest

/-- Appends the remaining entries after an emitted one, inserting commas
only before entries that are themselves emitted. -/
def jsonEncodeJoin (dropNull : Bool) (emitted : String) : List (String × JVal) → String
  | [] => emitted
  | (k, .jnull) :: rest =>
    if dropNull then jsonEncodeJoin dropNull emitted rest
    else jsonEncodeJoin dropNull (emitted ++ "," ++ jsonQuote k ++ ":null") rest
  | (k, v) :: rest =>
    jsonEncodeJoin dropNull (emitted ++ "," ++ jsonQuote k ++ ":" ++ jsonEncode dropNull v) rest

end

/-- `stringifyForPrompt`. -/
def stringifyForPrompt (value : JVal) (dropNull : Bool) : String :=
  jsonEncode dropNull value

/-- `maybeAddLine` (src/src/grabr.ts lines 1557-1575) as the list of lines
it appends (empty or a single line). -/
def maybeAddLine (key : String) (value : JVal) (dropNull : Bool) (allowEmpty : Bool) :
    List String :=
  match value, dropNull with
  | .jnull, true => []
  | _, _ =>
    let serialized := stringifyForPrompt value dropNull
    if !allowEmpty && (serialized == "\x7b\x7d" || serialized == "[]") then []
    else [key ++ "=" ++ serialized]

def jOptStr (o : Option String) : JVal :=
  match o with
  | none => .jnull
  | some s => .jstr s

def jOptInt (o : Option Int) : JVal :=
  match o with
  | none => .jnull
  | some n => .jnum n

def jOptBool (o : Option Bool) : JVal :=
  match o with
  | none => .jnull
  | some b => .jbool b

mutual

/-- An `SVal` as the JSON value it serializes to. -/
def svalToJVal : SVal → JVal
  | .str s => .jstr s
  | .num n => .jnum n
  | .bool b => .jbool b
  | .arr xs => .jarr (svalListToJVal xs)
  | .obj es => .jobj (svalEntriesToJVal es)

def svalListToJVal : List SVal → List JVal
  | [] => []
  | x :: rest => svalToJVal x :: svalListToJVal rest

def svalEntriesToJVal : List (String × SVal) → List (String × JVal)
  | [] => []
  | (k, v) :: rest => (k, svalToJVal v) :: svalEntriesToJVal rest

end

def jOptSVal (o : Option SVal) : JVal :=
  match o with
  | none => .jnull
  | some v => svalToJVal v

/-- A `SourceLocation` as stored inside the context (key order from
`toSourceLocation`'s object literal). -/
def jSourceRaw (s : SourceLocation) : JVal :=
  .jobj [("fileName", .jstr s.fileName), ("lineNumber", jOptInt s.lineNumber),
         ("columnNumber", jOptInt s.columnNumber), ("confidence", .jstr s.confidence),
         ("origin", .jstr s.origin)]

def jOptSourceRaw (o : Option SourceLocation) : JVal :=
  match o with
  | none => .jnull
  | some s => jSourceRaw s

/-- `formatSourceForPrompt` (src/src/grabr.ts lines 1577-1593): `line` and
`col` keys are added after the three base keys, only when non-null. -/
def formatSourceForPrompt (source : Option SourceLocation) : JVal :=
  match source with
  | none => .jnull
  | some s =>
    .jobj ([("file", .jstr s.fileName), ("confidence", .jstr s.confidence),
            ("origin", .jstr s.origin)] ++
      (match s.lineNumber with
       | some n => [("line", .jnum n)]
       | none => []) ++
      (match s.columnNumber with
       | some n => [("col", .jnum n)]
       | none => []))

def jDomNodeSummary (d : DomNodeSummary) : JVal :=
  .jobj [("tag", .jstr d.tag), ("id", jOptStr d.id), ("dataTestId", jOptStr d.dataTestId),
         ("classes", .jarr (d.classes.map JVal.jstr)), ("textSnippet", jOptStr d.textSnippet)]

def jOptSummary (o : Option DomNodeSummary) : JVal :=
  match o with
  | none => .jnull
  | some d => jDomNodeSummary d

def jSiblingSummary (s : SiblingSummary) : JVal :=
  .jobj [("index", .jnum s.index), ("total", .jnum s.total),
         ("previous", jOptSummary s.previous), ("next", jOptSummary s.next)]

def jChildSummary (c : ChildSummary) : JVal :=
  .jobj [("totalChildren", .jnum c.totalChildren),
         ("tagCounts", .jobj (c.tagCounts.map fun kv => (kv.1, JVal.jnum kv.2))),
         ("samples", .jarr (c.samples.map jDomNodeSummary))]

def jSelectors (s : SelectorInfo) : JVal :=
  .jobj [("preferred", .jstr s.preferred), ("all", .jarr (s.all.map JVal.jstr))]

def jDomNeighborhood (d : DomNeighborhood) : JVal :=
  .jobj [("snippet", .jstr d.snippet), ("parents", .jarr (d.parents.map jDomNodeSummary)),
         ("siblings", jSiblingSummary d.siblings), ("children", jChildSummary d.children),
         ("selectors", jSelectors d.selectors)]

def jBoundingBox (b : BoundingBox) : JVal :=
  .jobj [("x", .jnum b.x), ("y", .jnum b.y), ("width", .jnum b.width),
         ("height", .jnum b.height)]

def jSelectionIdentity (i : SelectionIdentity) : JVal :=
  .jobj [("tag", .jstr i.tag), ("id", jOptStr i.id), ("dataTestId", jOptStr i.dataTestId),
         ("role", jOptStr i.role), ("classes", .jarr (i.classes.map JVal.jstr))]

def jSelectionInfo (s : SelectionInfo) : JVal :=
  .jobj [("tag", .jstr s.tag), ("boundingBox", jBoundingBox s.boundingBox),
         ("identity", jSelectionIdentity s.identity),
         ("componentDisplayName", jOptStr s.componentDisplayName),
         ("nearestSource", jOptSourceRaw s.nearestSource),
         ("isLikelyServerComponent", jOptBool s.isLikelyServerComponent)]

def jComponentFlags (f : ComponentFlags) : JVal :=
  .jobj [("isHost", .jbool f.isHost), ("isComposite", .jbool f.isComposite),
         ("isSuspenseBoundary", jOptBool f.isSuspenseBoundary),
         ("isErrorBoundary", jOptBool f.isErrorBoundary),
         ("isServerComponent", jOptBool f.isServerComponent),
         ("isLayoutLike", jOptBool f.isLayoutLike)]

def jFrame (f : ReactComponentFrame) : JVal :=
  .jobj [("displayName", jOptStr f.displayName), ("isHost", .jbool f.isHost),
         ("source", jOptSourceRaw f.source), ("flags", jComponentFlags f.flags)]

def jPropHighlight (h : PropHighlight) : JVal :=
  .jobj [("name", .jstr h.name), ("value", jOptSVal h.value), ("reason", .jstr h.reason)]

def jPropsSnapshot (p : PropsSnapshot) : JVal :=
  .jobj [("totalProps", .jnum p.totalProps),
         ("highlighted", .jarr (p.highlighted.map jPropHighlight))]

def jStateEntry (e : StateSnapshotEntry) : JVal :=
  .jobj [("hookIndex", .jnum e.hookIndex), ("value", jOptSVal e.value)]

def jStateSnapshot (s : StateSnapshot) : JVal :=
  .jobj [("totalHooks", .jnum s.totalHooks), ("entries", .jarr (s.entries.map jStateEntry))]

def jContextEntry (e : ContextEntry) : JVal :=
  .jobj [("index", .jnum e.index), ("value", jOptSVal e.value)]

def jContextSnapshot (s : ContextSnapshot) : JVal :=
  .jobj [("totalContexts", .jnum s.totalContexts),
         ("entries", .jarr (s.entries.map jContextEntry))]

def jOpt (f : α → JVal) (o : Option α) : JVal :=
  match o with
  | none => .jnull
  | some x => f x

def jReactTreeSlice (r : ReactTreeSlice) : JVal :=
  .jobj [("stack", .jarr (r.stack.map jFrame)),
         ("ownerIndex", jOpt (fun n => .jnum n) r.ownerIndex),
         ("ownerProps", jOpt jPropsSnapshot r.ownerProps),
         ("ownerState", jOpt jStateSnapshot r.ownerState),
         ("ownerContexts", jOpt jContextSnapshot r.ownerContexts)]

def jReactDebug (d : ReactDebugInfo) : JVal :=
  .jobj [("buildType", .jstr d.buildType), ("inspectorStatus", .jstr d.inspectorStatus),
         ("message", jOptStr d.message)]

def jLayoutStyles (l : LayoutStyles) : JVal :=
  .jobj [("display", jOptStr l.display), ("position", jOptStr l.position),
         ("flexDirection", jOptStr l.flexDirection), ("justifyContent", jOptStr l.justifyContent),
         ("alignItems", jOptStr l.alignItems), ("gap", jOptStr l.gap),
         ("gridTemplateColumns", jOptStr l.gridTemplateColumns),
         ("gridTemplateRows", jOptStr l.gridTemplateRows)]

def jSpacingStyles (s : SpacingStyles) : JVal :=
  .jobj [("margin", jOptStr s.margin), ("padding", jOptStr s.padding)]

def jSizeStyles (s : SizeStyles) : JVal :=
  .jobj [("width", jOptStr s.width), ("height", jOptStr s.height)]

def jTypographyStyles (t : TypographyStyles) : JVal :=
  .jobj [("fontFamily", jOptStr t.fontFamily), ("fontSize", jOptStr t.fontSize),
         ("fontWeight", jOptStr t.fontWeight), ("lineHeight", jOptStr t.lineHeight)]

def jColorStyles (c : ColorStyles) : JVal :=
  .jobj [("color", jOptStr c.color), ("backgroundColor", jOptStr c.backgroundColor),
         ("borderColor", jOptStr c.borderColor)]

def jMatchedRule (m : MatchedRuleSummary) : JVal :=
  .jobj [("selector", .jstr m.selector), ("origin", .jstr m.origin),
         ("specificity", .jstr m.specificity), ("importantCount", .jnum m.importantCount)]

/-- A `StyleFrame` as JSON; the optional `ruleSummaries` key is present only
when the field is set (TS optional property). -/
def jStyleFrame (s : StyleFrame) : JVal :=
  .jobj ([("layout", jLayoutStyles s.layout), ("spacing", jSpacingStyles s.spacing),
          ("size", jSizeStyles s.size), ("typography", jTypographyStyles s.typography),
          ("colors", jColorStyles s.colors), ("clickable", .jbool s.clickable)] ++
    (match s.ruleSummaries with
     | some rules => [("ruleSummaries", JVal.jarr (rules.map jMatchedRule))]
     | none => []))

def jHandler (h : EventHandlerInfo) : JVal :=
  .jobj [("propName", .jstr h.propName), ("inferredKind", .jstr h.inferredKind),
         ("functionName", jOptStr h.functionName),
         ("declaredOnComponent", jOptStr h.declaredOnComponent),
         ("source", jOptSourceRaw h.source), ("comment", jOptStr h.comment),
         ("inferenceSource", .jstr h.inferenceSource)]

def jBehavior (b : BehaviorContext) : JVal :=
  .jobj [("inferenceLevel", .jstr b.inferenceLevel),
         ("handlers", .jarr (b.handlers.map jHandler))]

def jHint (h : DataSourceHint) : JVal :=
  .jobj [("kind", .jstr h.kind), ("identifier", jOptStr h.identifier),
         ("description", jOptStr h.description)]

def jRouteParams (o : Option (List (String × String))) : JVal :=
  match o with
  | none => .jnull
  | some params => .jobj (params.map fun kv => (kv.1, JVal.jstr kv.2))

def jAppContext (a : AppContext) : JVal :=
  .jobj [("url", .jstr a.url), ("pathname", .jstr a.pathname), ("search", .jstr a.search),
         ("hash", .jstr a.hash), ("framework", .jstr a.framework),
         ("routePatternGuess", jOptStr a.routePatternGuess),
         ("routeParamsGuess", jRouteParams a.routeParamsGuess),
         ("pageComponent", jOptSourceRaw a.pageComponent),
         ("layoutComponents", .jarr (a.layoutComponents.map jSourceRaw)),
         ("dataSources", .jarr (a.dataSources.map jHint))]

def jTestHint (t : TestHint) : JVal :=
  .jobj [("type", .jstr t.type), ("location", jSourceRaw t.location),
         ("description", jOptStr t.description)]

/-- The whole context as the JSON value `stringifyForPrompt(context, false)`
serializes; the optional `tests` key is present only when set. -/
def jvalOfContext (c : ElementContextV2) : JVal :=
  .jobj ([("version", .jnum c.version), ("selection", jSelectionInfo c.selection),
          ("dom", jDomNeighborhood c.dom), ("react", jOpt jReactTreeSlice c.react),
          ("reactDebug", jReactDebug c.reactDebug), ("styling", jStyleFrame c.styling),
          ("behavior", jBehavior c.behavior), ("app", jAppContext c.app)] ++
    (match c.tests with
     | some tests => [("tests", JVal.jobj [("hints", JVal.jarr (tests.hints.map jTestHint))])]
     | none => []))

/-- `deriveSelectionId` (src/src/grabr.ts lines 1595-1607). -/
def deriveSelectionId (context : ElementContextV2) : String :=
  let s := context.selection
  let parts := [s.identity.id.getD "", s.identity.dataTestId.getD "", s.tag,
    s.componentDisplayName.getD "", (s.nearestSource.map fun src => src.fileName).getD "",
    toString s.boundingBox.x, toString s.boundingBox.y]
  "sel_" ++ promptChecksum (String.intercalate "|" parts)

/-- The document checksum of `renderElementContextPrompt`. -/
def contextChecksum (context : ElementContextV2) : String :=
  promptChecksum (stringifyForPrompt (jvalOfContext context) false)

/-- `formatReactStack` (src/src/grabr.ts lines 1609-1623). -/
def formatReactStack (react : ReactTreeSlice) : JVal :=
  .jarr (react.stack.mapIdx fun idx frame =>
    .jobj ([("idx", JVal.jnum idx), ("displayName", JVal.jstr (frame.displayName.getD "<host>")),
            ("isHost", JVal.jbool frame.isHost), ("source", formatSourceForPrompt frame.source),
            ("flags", jComponentFlags frame.flags)] ++
      (if react.ownerIndex == some idx then [("owner", JVal.jbool true)] else [])))

/-- `formatPropsSnapshot` (note the `name, reason, value` key order). -/
def formatPropsSnapshot (snapshot : Option PropsSnapshot) : JVal :=
  match snapshot with
  | none => .jnull
  | some p =>
    .jobj [("total", .jnum p.totalProps),
           ("highlighted", .jarr (p.highlighted.map fun h =>
             JVal.jobj [("name", JVal.jstr h.name), ("reason", JVal.jstr h.reason),
                        ("value", jOptSVal h.value)]))]

def formatStateSnapshot (snapshot : Option StateSnapshot) : JVal :=
  match snapshot with
  | none => .jnull
  | some s => .jobj [("total", .jnum s.totalHooks), ("entries", .jarr (s.entries.map jStateEntry))]

def formatContextSnapshot (snapshot : Option ContextSnapshot) : JVal :=
  match snapshot with
  | none => .jnull
  | some s =>
    .jobj [("total", .jnum s.totalContexts), ("entries", .jarr (s.entries.map jContextEntry))]

/-- `formatBehaviorHandlers`. -/
def formatBehaviorHandlers (handlers : List EventHandlerInfo) : JVal :=
  .jarr (handlers.map fun h =>
    .jobj [("prop", JVal.jstr h.propName), ("kind", JVal.jstr h.inferredKind),
           ("fn", JVal.jstr (h.functionName.getD "anonymous")),
           ("component", JVal.jstr (h.declaredOnComponent.getD "unknown")),
           ("source", formatSourceForPrompt h.source),
           ("inference", JVal.jstr h.inferenceSource)])

def sectionLines (name : String) (body : List String) : List String :=
  ("[section:" ++ name ++ "]") :: body ++ ["[end:" ++ name ++ "]"]

def openTagLine (selectionId checksum : String) : String :=
  "<ai_grab_selection v=\"2\" sel_id=\"" ++ selectionId ++ "\" checksum=\"" ++ checksum ++ "\">"

def closeTagLine (selectionId checksum : String) : String :=
  "<ai_grab_selection_end sel_id=\"" ++ selectionId ++ "\" checksum=\"" ++ checksum ++ "\"/>"

/-- The `lines` array of `renderElementContextPrompt`
(src/src/grabr.ts lines 1670-1838); the source `?? fallback` on
`context.reactDebug` is dead in the model because the field is mandatory. -/
def renderElementContextLines (context : ElementContextV2) : List String :=
  let selectionId := deriveSelectionId context
  let checksum := contextChecksum context
  let s := context.selection
  let dom := context.dom
  let react := context.react
  let style := context.styling
  let app := context.app
  let reactDebug := context.reactDebug
  [openTagLine selectionId checksum] ++
  sectionLines "meta" (
    maybeAddLine "version" (.jnum 2) false false ++
    maybeAddLine "sel_id" (.jstr selectionId) false false ++
    maybeAddLine "checksum" (.jstr checksum) false false ++
    maybeAddLine "react_available" (.jbool react.isSome) true false ++
    maybeAddLine "react_inspector_status" (.jstr reactDebug.inspectorStatus) true false ++
    maybeAddLine "react_build" (.jstr reactDebug.buildType) true false ++
    maybeAddLine "react_message" (jOptStr reactDebug.message) true false ++
    maybeAddLine "source_hint_present" (.jbool s.nearestSource.isSome) true false ++
    maybeAddLine "tests_present"
      (.jbool (match context.tests with
               | some tests => tests.hints.length > 0
               | none => false)) true false) ++
  sectionLines "selection" (
    maybeAddLine "tag" (.jstr s.tag) false false ++
    maybeAddLine "bounding_box"
      (.jobj [("x", .jnum s.boundingBox.x), ("y", .jnum s.boundingBox.y),
              ("w", .jnum s.boundingBox.width), ("h", .jnum s.boundingBox.height)]) false false ++
    maybeAddLine "identity"
      (.jobj [("id", jOptStr s.identity.id), ("dataTestId", jOptStr s.identity.dataTestId),
              ("role", jOptStr s.identity.role),
              ("classes", .jarr (s.identity.classes.map JVal.jstr))]) false false ++
    maybeAddLine "component" (jOptStr s.componentDisplayName) true false ++
    maybeAddLine "nearest_source" (formatSourceForPrompt s.nearestSource) true false ++
    maybeAddLine "is_server_component" (jOptBool s.isLikelyServerComponent) true false) ++
  sectionLines "dom" (
    maybeAddLine "snippet" (.jstr dom.snippet) false false ++
    maybeAddLine "parents" (.jarr (dom.parents.map jDomNodeSummary)) true false ++
    maybeAddLine "siblings" (jSiblingSummary dom.siblings) true false ++
    maybeAddLine "children" (jChildSummary dom.children) true false ++
    maybeAddLine "selectors" (jSelectors dom.selectors) true false) ++
  sectionLines "react" (
    maybeAddLine "status"
      (.jobj [("available", .jbool react.isSome),
              ("inspectorStatus", .jstr reactDebug.inspectorStatus),
              ("build", .jstr reactDebug.buildType),
              ("message", jOptStr reactDebug.message)]) true false ++
    (match react with
     | some r =>
       maybeAddLine "owner_index" (jOpt (fun n => .jnum n) r.ownerIndex) false false ++
       maybeAddLine "stack" (formatReactStack r) true true ++
       maybeAddLine "owner_props" (formatPropsSnapshot r.ownerProps) true true ++
       maybeAddLine "owner_state" (formatStateSnapshot r.ownerState) true true ++
       maybeAddLine "owner_contexts" (formatContextSnapshot r.ownerContexts) true true
     | none => [])) ++
  sectionLines "styling" (
    maybeAddLine "layout" (jLayoutStyles style.layout) true false ++
    maybeAddLine "spacing" (jSpacingStyles style.spacing) true false ++
    maybeAddLine "size" (jSizeStyles style.size) true false ++
    maybeAddLine "typography" (jTypographyStyles style.typography) true false ++
    maybeAddLine "colors" (jColorStyles style.colors) true false ++
    maybeAddLine "clickable" (.jbool style.clickable) false false) ++
  sectionLines "behavior" (
    maybeAddLine "inference_level" (.jstr context.behavior.inferenceLevel) false false ++
    maybeAddLine "handlers" (formatBehaviorHandlers context.behavior.handlers) true true) ++
  sectionLines "app" (
    maybeAddLine "url"
      (.jobj [("full", .jstr app.url), ("pathname", .jstr app.pathname),
              ("search", .jstr app.search), ("hash", .jstr app.hash)]) true false ++
    maybeAddLine "routing"
      (.jobj [("framework", .jstr app.framework),
              ("routePatternGuess", jOptStr app.routePatternGuess),
              ("routeParamsGuess", jRouteParams app.routeParamsGuess),
              ("pageComponent", formatSourceForPrompt app.pageComponent),
              ("layoutComponents",
               .jarr (app.layoutComponents.map fun loc => formatSourceForPrompt (some loc)))])
      true true ++
    maybeAddLine "data_sources" (.jarr (app.dataSources.map jHint)) true true) ++
  (match context.tests with
   | some tests =>
     sectionLines "tests" (maybeAddLine "hints" (.jarr (tests.hints.map jTestHint)) true true)
   | none => []) ++
  [closeTagLine selectionId checksum]

/-- `renderElementContextPrompt`: the joined lines. -/
def renderElementContextPrompt (context : ElementContextV2) : String :=
  String.intercalate "\n" (renderElementContextLines context)

-- -----------------------------------------------------------------------------
-- Selection controller (src/src/grabr.ts lines 2196-2420)
-- -----------------------------------------------------------------------------

/-- One progress callback invocation (`SelectionFinalizeProgress`). -/
structure ProgressEvent where
  phase : String
  completed : Nat
  total : Nat
  message : Option String
deriving Repr, DecidableEq

/-- The controller's collaborators during `finalizeSelection`: the inspector
engine's capture, the active provider's `sendContext`, and the
environment-supplied session id (`crypto.randomUUID()` or the time+random
fallback), timestamp and URL. -/
structure CaptureEnv where
  capture : Elem → Except String ElementContextV2
  send : GrabrSession → Except String Unit
  sessionId : String
  createdAt : String
  url : String
  hasDocument : Bool

/-- `dedupeElementsPreserveOrder` keyed on JS reference identity (`ref`). -/
def dedupeLoop (seen : List Nat) : List Elem → List Elem
  | [] => []
  | el :: rest =>
    if seen.contains el.core.ref then dedupeLoop seen rest
    else el :: dedupeLoop (el.core.ref :: seen) rest

def dedupeElementsPreserveOrder (elements : List Elem) : List Elem :=
  dedupeLoop [] elements

/-- `isElementConnectedToDocument`. -/
def isElementConnectedToDocument (hasDocument : Bool) (el : Elem) : Bool :=
  if !hasDocument then false
  else el.core.isConnected || el.core.containedInDoc

/-- `mapWithConcurrencyLimit` (src/src/grabr.ts lines 2401-2420). Each
worker claims `nextIndex++` and writes `results[currentIndex]`, so for a
deterministic mapper the result array equals the index-ordered map
regardless of worker interleaving; `limit` only bounds how many captures
are in flight, which the single-threaded model does not observe. -/
def mapWithConcurrencyLimit (items : List α) (_limit : Nat) (mapper : α → Nat → β) : List β :=
  items.mapIdx fun i a => mapper a i

def exceptFails : Except ε α → Bool
  | .error _ => true
  | .ok _ => false

/-- `GrabrController.finalizeSelection` (src/src/grabr.ts lines 2276-2392)
as a pure function from the collaborator environment, the stored user
instruction and the selected elements to (progress events, constructed
session). The per-element `try/catch` turns a failed capture into `none`
and bumps `failed`; the `finally` emits one building-context event per
element (modelled in index order; the counters are order-independent).
Overlay toasts are rendering effects outside the model. -/
def finalizeSelection (cenv : CaptureEnv) (instruction : Option String)
    (elements : List Elem) : List ProgressEvent × Option GrabrSession :=
  let connected :=
    (dedupeElementsPreserveOrder elements).filter (isElementConnectedToDocument cenv.hasDocument)
  if connected.length == 0 then
    ([⟨"error", 0, 0, some "No valid elements to capture."⟩], none)
  else
    let total := connected.length
    let results := mapWithConcurrencyLimit connected 2 fun el _ =>
      match cenv.capture el with
      | .ok ctx => some ctx
      | .error _ => none
    let failed := connected.countP fun el => exceptFails (cenv.capture el)
    let captureEvents := (List.range total).map fun k =>
      (⟨"building-context", k + 1, total, none⟩ : ProgressEvent)
    let contexts := results.filterMap id
    if contexts.length == 0 then
      ((⟨"building-context", 0, total, none⟩ : ProgressEvent) :: captureEvents ++
        [⟨"error", total, total, some "Failed to capture context for all selected elements."⟩],
       none)
    else
      let summary :=
        if failed > 0 then
          "Session with " ++ toString contexts.length ++ " element(s) captured; " ++
            toString failed ++ " failed."
        else
          "Session with " ++ toString contexts.length ++ " element(s) captured."
      let session : GrabrSession :=
        ⟨cenv.sessionId, cenv.createdAt, cenv.url, instruction, some summary, contexts⟩
      let tailEvents :=
        match cenv.send session with
        | .ok _ => [(⟨"done", total, total, none⟩ : ProgressEvent)]
        | .error e => [(⟨"error", total, total, some e⟩ : ProgressEvent)]
      ((⟨"building-context", 0, total, none⟩ : ProgressEvent) :: captureEvents ++
        [⟨"sending", total, total, none⟩] ++ tailEvents,
       some session)

-- -----------------------------------------------------------------------------
-- Concrete values used by witnesses and counterexamples
-- -----------------------------------------------------------------------------

/-- Top-level entry count of a JS value (separates unequal containers). -/
def jsTopLen : JSVal → Nat
  | .arr xs => xs.length
  | .obj es => es.length
  | _ => 0

/-- Nine object entries whose first converts to null (`undefined` is not
serializable): distinguishes "first 8 attempted" from "first 8 kept". -/
def c3entries : List (String × JSVal) :=
  [("a", .undef), ("b1", .num 1), ("b2", .num 2), ("b3", .num 3), ("b4", .num 4),
   ("b5", .num 5), ("b6", .num 6), ("b7", .num 7), ("b8", .num 8)]

def c3input : JSVal := .obj c3entries

/-- An array with a literal `null` element. -/
def c4input : JSVal := .arr [.num 1, .null, .num 2]

/-- A detection input whose fiber stack pins the framework to next-app and
whose pathname has a single short lowercase segment. -/
def c5slice : ReactTreeSlice := {
  stack := [{
    displayName := some "Page"
    isHost := false
    source := some ⟨"/app/page.tsx", none, none, "high", "bippy"⟩
    flags := ⟨false, true, none, none, some true, some false⟩
  }]
  ownerIndex := none
  ownerProps := none
  ownerState := none
  ownerContexts := none
}

def c5input : FrameworkDetectionInput :=
  ⟨some c5slice, "https://example.test/ab", "/ab"⟩

/-- A parentless element with no id, test id or classes. -/
def c7core : ElemCore := {
  ref := 7, tagName := "DIV", id := "", className := "", classList := [], attrs := [],
  textContent := none, rect := ⟨0, 0, 0, 0⟩, computedStyle := [], isButton := false,
  isAnchor := false, isConnected := true, containedInDoc := true
}

def c7elem : Elem := ⟨.node c7core [], []⟩

/-- A bippy environment in which every capability succeeds benignly. -/
def benignBippy : BippyEnv := {
  renderers := []
  detectReactBuildType := fun _ => .ok "unknown"
  hasRDTHook := false
  isInstrumentationActive := false
  getFiberFromHostInstance := fun _ => .ok none
  getLatestFiber := fun f => .ok f
  getFiberStack := fun _ => .ok []
  getSource := fun _ => .ok none
  getDisplayName := fun _ => none
  isHostFiber := fun _ => false
  isCompositeFiber := fun _ => false
  fiberTag := fun _ => none
  traverseProps := fun _ => .ok []
  traverseState := fun _ => .ok []
  traverseContexts := fun _ => .ok []
}

def benignWin : WindowEnv :=
  ⟨true, true, true, "https://example.test/", "/", "", ""⟩

def benignEnv : Env := ⟨benignBippy, benignWin, fun s => s⟩

def sampleCore : ElemCore := {
  ref := 1, tagName := "BUTTON", id := "save-btn", className := "", classList := [],
  attrs := [], textContent := some "Save", rect := ⟨0, 0, 100, 40⟩, computedStyle := [],
  isButton := true, isAnchor := false, isConnected := true, containedInDoc := true
}

def sampleElem : Elem := ⟨.node sampleCore [], []⟩

/-- An environment whose introspection is nominally healthy but whose
`traverseProps` capability throws; the host fiber is composite so the owner
snapshot is attempted. -/
def throwingEnv : Env := ⟨{ benignBippy with
  hasRDTHook := true
  isInstrumentationActive := true
  getFiberFromHostInstance := fun _ => .ok (some (0 : Nat))
  getFiberStack := fun f => .ok [f]
  isCompositeFiber := fun _ => true
  traverseProps := fun _ => .error "traverseProps exploded"
}, benignWin, fun s => s⟩

/-- An environment where the caught capabilities (`getFiberFromHostInstance`
and `getSource`) throw but the uncaught ones are benign. -/
def caughtThrowEnv : Env := ⟨{ benignBippy with
  hasRDTHook := true
  isInstrumentationActive := true
  getFiberFromHostInstance := fun _ => .error "getFiberFromHostInstance exploded"
  getSource := fun _ => .error "getSource exploded"
}, benignWin, fun s => s⟩

/-- A minimal well-formed context (mirrors the shape of an engine result for
a plain element with no introspection). -/
def sampleCtx : ElementContextV2 := {
  version := 2
  selection := {
    tag := "div"
    boundingBox := ⟨0, 0, 10, 10⟩
    identity := ⟨"div", none, none, none, []⟩
    componentDisplayName := none
    nearestSource := none
    isLikelyServerComponent := none
  }
  dom := {
    snippet := "<div></div>"
    parents := []
    siblings := ⟨0, 1, none, none⟩
    children := ⟨0, [], []⟩
    selectors := ⟨"div", ["div", "div"]⟩
  }
  react := none
  reactDebug := ⟨"unknown", "no-hook", none⟩
  styling := {
    layout := ⟨none, none, none, none, none, none, none, none⟩
    spacing := ⟨none, none⟩
    size := ⟨none, none⟩
    typography := ⟨none, none, none, none⟩
    colors := ⟨none, none, none⟩
    clickable := false
    ruleSummaries := none
  }
  behavior := ⟨"none", []⟩
  app := ⟨"", "", "", "", "unknown", none, none, none, [], [⟨"unknown", none, none⟩]⟩
  tests := none
}

def mkWitnessElem (r : Nat) : Elem :=
  ⟨.node { ref := r, tagName := "DIV", id := "", className := "", classList := [], attrs := [],
           textContent := none, rect := ⟨0, 0, 1, 1⟩, computedStyle := [], isButton := false,
           isAnchor := false, isConnected := true, containedInDoc := true } [], []⟩

/-- A capture environment for the finalize witness: capturing the element
with ref 2 throws, the others succeed. -/
def wCaptureEnv : CaptureEnv := {
  capture := fun el => if el.core.ref == 2 then .error "capture failed" else .ok sampleCtx
  send := fun _ => .ok ()
  sessionId := "session-1"
  createdAt := "2026-01-01T00:00:00.000Z"
  url := "https://example.test/"
  hasDocument := true
}

def badFramesOverrides : PartialRuntimeConfig := ⟨none, some 0, none⟩

def badModeOverrides : PartialRuntimeConfig := ⟨some "totally-invalid", none, none⟩

/-- Written from the amended claim of C5: a purely numeric segment becomes
an indexed placeholder; a segment longer than 2 characters equal to its own
lowercasing stays literal; everything else becomes a generic placeholder. -/
def specSegmentPattern (idx : Nat) (seg : String) : String :=
  if seg.length > 0 && seg.data.all (fun c => c.isDigit) then "[id" ++ toString idx ++ "]"
  else if seg.length > 2 && seg == jsToLower seg then seg
  else "[param" ++ toString idx ++ "]"

/-- Written from the amended claim of C5: the route parameter captured for a
segment, if any (placeholders capture, literals do not). -/
def specSegmentParam (idx : Nat) (seg : String) : Option (String × String) :=
  if seg.length > 0 && seg.data.all (fun c => c.isDigit) then some ("id" ++ toString idx, seg)
  else if seg.length > 2 && seg == jsToLower seg then none
  else some ("param" ++ toString idx, seg)

/-- A detection input for the C5 witness: next-app stack, pathname with a
literal, a numeric and a mixed-case segment. -/
def c5witInput : FrameworkDetectionInput :=
  ⟨some c5slice, "https://example.test/users/42/ProfileCard", "/users/42/ProfileCard"⟩

/-- The detect result on `c5witInput` (for the witness statement). -/
def c5witResult : FrameworkDetectionResult := {
  framework := "next-app"
  routePatternGuess := some "/users/[id1]/[param2]"
  routeParamsGuess := some [("id1", "42"), ("param2", "ProfileCard")]
  pageComponent := some ⟨"/app/page.tsx", none, none, "high", "bippy"⟩
  layoutComponents := []
}

def c7witParentCore : ElemCore := {
  ref := 8, tagName := "SECTION", id := "", className := "", classList := [], attrs := [],
  textContent := none, rect := ⟨0, 0, 0, 0⟩, computedStyle := [], isButton := false,
  isAnchor := false, isConnected := true, containedInDoc := true
}

def c7witSibCore : ElemCore := {
  ref := 9, tagName := "DIV", id := "", className := "", classList := [], attrs := [],
  textContent := none, rect := ⟨0, 0, 0, 0⟩, computedStyle := [], isButton := false,
  isAnchor := false, isConnected := true, containedInDoc := true
}

/-- The ancestor level of the C7 witness element: one same-tag left
sibling. -/
def c7witAnc : AncestorCtx := ⟨c7witParentCore, [.node c7witSibCore []], []⟩

/-- The C7 witness element: a plain div with a parent and one preceding div
sibling, so the positional fallback must produce index 2. -/
def c7witElem : Elem :=
  ⟨.node { c7core with ref := 10 } [], [c7witAnc]⟩

-- -----------------------------------------------------------------------------
-- Converter lemmas
-- -----------------------------------------------------------------------------

/-- The object loop keeps the first `b` *successfully converted* entries:
skipped entries do not consume budget, so later entries backfill. -/
theorem convertObjectEntries_eq (d : Nat) (es : List (String × JSVal)) :
    ∀ b, convertObjectEntries es b d =
      (es.filterMap fun kv =>
        (toSerializableValue kv.2 (d + 1)).map fun s => (kv.1, s)).take b := by
  induction es with
  | nil => intro b; cases b <;> simp [convertObjectEntries]
  | cons kv rest ih =>
    obtain ⟨k, v⟩ := kv
    intro b
    cases b with
    | zero => simp [convertObjectEntries]
    | succ b =>
      cases hcv : toSerializableValue v (d + 1) with
      | none => simp [convertObjectEntries, hcv, List.filterMap_cons, ih]
      | some s => simp [convertObjectEntries, hcv, List.filterMap_cons, ih]

/-- The array loop attempts the first `b` elements and drops failed
conversions. -/
theorem convertArrayItems_eq (d : Nat) (xs : List JSVal) :
    ∀ b, convertArrayItems xs b d =
      (xs.take b).filterMap fun x => toSerializableValue x (d + 1) := by
  induction xs with
  | nil => intro b; cases b <;> simp [convertArrayItems]
  | cons x rest ih =>
    intro b
    cases b with
    | zero => simp [convertArrayItems]
    | succ b =>
      cases hcv : toSerializableValue x (d + 1) with
      | none => simp [convertArrayItems, hcv, ih]
      | some s => simp [convertArrayItems, hcv, ih]

/-- Conversion of values built only from non-null primitives, arrays and
plain objects, nested shallowly enough, is exactly the claim's truncation:
proved level by level on the remaining nesting budget `n`. -/
theorem convert_plain : ∀ (n : Nat) (v : JSVal) (d : Nat), nestDepth v ≤ n → n + d ≤ 2 →
    plainData v = true → (toSerializableValue v d).map svalToJS = some (specRestrict v) := by
  intro n
  induction n with
  | zero =>
    intro v d h1 h2 h3
    cases v with
    | str s => simp [toSerializableValue, show ¬ d > 2 by omega, svalToJS, specRestrict]
    | num m => simp [toSerializableValue, show ¬ d > 2 by omega, svalToJS, specRestrict]
    | bool b => simp [toSerializableValue, show ¬ d > 2 by omega, svalToJS, specRestrict]
    | arr xs => simp [nestDepth] at h1
    | obj es => simp [nestDepth] at h1
    | null => simp [plainData] at h3
    | undef => simp [plainData] at h3
    | func name => simp [plainData] at h3
    | sym => simp [plainData] at h3
  | succ n ih =>
    intro v d h1 h2 h3
    cases v with
    | str s => simp [toSerializableValue, show ¬ d > 2 by omega, svalToJS, specRestrict]
    | num m => simp [toSerializableValue, show ¬ d > 2 by omega, svalToJS, specRestrict]
    | bool b => simp [toSerializableValue, show ¬ d > 2 by omega, svalToJS, specRestrict]
    | null => simp [plainData] at h3
    | undef => simp [plainData] at h3
    | func name => simp [plainData] at h3
    | sym => simp [plainData] at h3
    | arr xs =>
      have hxs : nestDepthList xs ≤ n := by
        simp [nestDepth] at h1; omega
      have hpl : plainDataList xs = true := by simpa [plainData] using h3
      have inner : ∀ ys : List JSVal, nestDepthList ys ≤ n → plainDataList ys = true →
          ∀ b, svalListToJS (convertArrayItems ys b d) = specRestrictList ys b := by
        intro ys
        induction ys with
        | nil => intro _ _ b; cases b <;> simp [convertArrayItems, svalListToJS, specRestrictList]
        | cons y rest ihy =>
          intro hnd hp b
          rw [nestDepthList, Nat.max_le] at hnd
          rw [plainDataList, Bool.and_eq_true] at hp
          cases b with
          | zero => simp [convertArrayItems, svalListToJS, specRestrictList]
          | succ b =>
            have hc := ih y (d + 1) hnd.1 (by omega) hp.1
            cases hcv : toSerializableValue y (d + 1) with
            | none => rw [hcv] at hc; simp at hc
            | some s =>
              rw [hcv] at hc
              simp only [Option.map_some'] at hc
              have hs : svalToJS s = specRestrict y := by injection hc
              simp [convertArrayItems, hcv, svalListToJS, specRestrictList, hs,
                ihy hnd.2 hp.2 b]
      simp [toSerializableValue, show ¬ d > 2 by omega, svalToJS, specRestrict,
        inner xs hxs hpl 5]
    | obj es =>
      have hes : nestDepthEntries es ≤ n := by
        simp [nestDepth] at h1; omega
      have hpl : plainDataEntries es = true := by simpa [plainData] using h3
      have inner : ∀ fs : List (String × JSVal), nestDepthEntries fs ≤ n →
          plainDataEntries fs = true →
          ∀ b, svalEntriesToJS (convertObjectEntries fs b d) = specRestrictEntries fs b := by
        intro fs
        induction fs with
        | nil => intro _ _ b; cases b <;> simp [convertObjectEntries, svalEntriesToJS,
            specRestrictEntries]
        | cons kv rest ihy =>
          obtain ⟨k, y⟩ := kv
          intro hnd hp b
          rw [nestDepthEntries, Nat.max_le] at hnd
          rw [plainDataEntries, Bool.and_eq_true] at hp
          cases b with
          | zero => simp [convertObjectEntries, svalEntriesToJS, specRestrictEntries]
          | succ b =>
            have hc := ih y (d + 1) hnd.1 (by omega) hp.1
            cases hcv : toSerializableValue y (d + 1) with
            | none => rw [hcv] at hc; simp at hc
            | some s =>
              rw [hcv] at hc
              simp only [Option.map_some'] at hc
              have hs : svalToJS s = specRestrict y := by injection hc
              simp [convertObjectEntries, hcv, svalEntriesToJS, specRestrictEntries, hs,
                ihy hnd.2 hp.2 b]
      simp [toSerializableValue, show ¬ d > 2 by omega, svalToJS, specRestrict,
        inner es hes hpl 8]

-- -----------------------------------------------------------------------------
-- Claim theorems: serializable-value converter (C3, C4, C10)
-- -----------------------------------------------------------------------------

/-- Claim C3, counterexample: the claim's "budget applying to the first 8
attempted entries, skip-on-null, and no backfill" fails on a 9-entry object
whose first entry converts to null — the code keeps 8 entries (backfilling
with the 9th), the claim's reading keeps only 7. -/
theorem C3_counterexample :
    toSerializableValue c3input 0 ≠ some (.obj (claimObjectEntries c3entries 0)) ∧
    toSerializableValue c3input 0 =
      some (.obj [("b1", .num 1), ("b2", .num 2), ("b3", .num 3), ("b4", .num 4),
                  ("b5", .num 5), ("b6", .num 6), ("b7", .num 7), ("b8", .num 8)]) ∧
    (claimObjectEntries c3entries 0).length = 7 := by
  refine ⟨?_, rfl, rfl⟩
  intro h
  exact absurd (congrArg (fun o => o.elim 0 topEntryCount) h) (by decide)

/-- Claim C3 (amended): object entries are kept in iteration order under an
8-entry budget counting only kept entries — an entry whose converted value
is null is skipped without consuming budget, and iteration continues past
the first 8 attempted entries until 8 entries are kept or the entries are
exhausted (later entries backfill). Formally the result is the first 8 of
the null-skipping conversion of the whole entry list. -/
theorem C3_object_budget_amended (entries : List (String × JSVal)) (d : Nat) (hd : d ≤ 2) :
    toSerializableValue (.obj entries) d =
      some (.obj ((entries.filterMap fun kv =>
        (toSerializableValue kv.2 (d + 1)).map fun s => (kv.1, s)).take 8)) := by
  simp [toSerializableValue, show ¬ d > 2 by omega, convertObjectEntries_eq]

/-- Witness for C3: the amended theorem applied to a concrete one-entry
object at depth 0. -/
theorem C3_witness :
    toSerializableValue (.obj [("k", .num 5)]) 0 = some (.obj [("k", .num 5)]) :=
  (C3_object_budget_amended [("k", .num 5)] 0 (by decide)).trans rfl

/-- Claim C4, counterexample: on `[1, null, 2]` (acyclic, nested 1 level)
the converter drops the null element, so the result is not structurally
equal to the input restricted to 5 items / 8 keys. -/
theorem C4_counterexample :
    (toSerializableValue c4input 0).map svalToJS ≠ some (specRestrict c4input) ∧
    (toSerializableValue c4input 0).map svalToJS = some (.arr [.num 1, .num 2]) ∧
    specRestrict c4input = .arr [.num 1, .null, .num 2] := by
  refine ⟨?_, rfl, rfl⟩
  intro h
  exact absurd (congrArg (fun o => o.elim 0 jsTopLen) h) (by decide)

/-- Claim C4 (amended): depth > 2 always yields null; string/number/boolean
primitives pass through unchanged at admissible depths; and on any acyclic
value nested at most 2 levels deep *that contains no null, undefined,
function or symbol leaves*, the result is structurally equal to the input
restricted to at most 8 object keys per level and at most 5 array items per
array (null-containing values lose their nulls, per the counterexample). -/
theorem C4_convert_structural_amended :
    (∀ (v : JSVal) (d : Nat), d > 2 → toSerializableValue v d = none) ∧
    (∀ (s : String) (n : Int) (b : Bool) (d : Nat), d ≤ 2 →
      toSerializableValue (.str s) d = some (.str s) ∧
      toSerializableValue (.num n) d = some (.num n) ∧
      toSerializableValue (.bool b) d = some (.bool b)) ∧
    (∀ v : JSVal, nestDepth v ≤ 2 → plainData v = true →
      (toSerializableValue v 0).map svalToJS = some (specRestrict v)) := by
  refine ⟨?_, ?_, ?_⟩
  · intro v d hd
    cases v <;> simp [toSerializableValue, hd]
  · intro s n b d hd
    refine ⟨?_, ?_, ?_⟩ <;> simp [toSerializableValue, show ¬ d > 2 by omega]
  · intro v h1 h2
    exact convert_plain 2 v 0 h1 (by omega) h2

/-- Witness for C4: the amended theorem applied to a concrete two-level
null-free value. -/
theorem C4_witness :
    (toSerializableValue (.obj [("a", .arr [.num 1, .str "x"]), ("b", .bool true)]) 0).map
        svalToJS =
      some (specRestrict (.obj [("a", .arr [.num 1, .str "x"]), ("b", .bool true)])) :=
  C4_convert_structural_amended.2.2 (.obj [("a", .arr [.num 1, .str "x"]), ("b", .bool true)])
    (by decide) (by decide)

/-- Claim C10: a literal null array element is dropped exactly like a failed
conversion — `[1, null, 2]` converts to `[1, 2]`, whose length is below
`min 5 3` — and in general an array at admissible depth converts to the
null-skipping conversion of its first 5 elements. -/
theorem C10_array_null_dropped :
    toSerializableValue c4input 0 = some (.arr [.num 1, .num 2]) ∧
    2 < min 5 3 ∧
    ∀ (xs : List JSVal) (d : Nat), d ≤ 2 →
      toSerializableValue (.arr xs) d =
        some (.arr ((xs.take 5).filterMap fun x => toSerializableValue x (d + 1))) := by
  refine ⟨rfl, by decide, ?_⟩
  intro xs d hd
  simp [toSerializableValue, show ¬ d > 2 by omega, convertArrayItems_eq]

/-- Witness for C10: the general clause applied to a concrete array at
depth 1. -/
theorem C10_witness :
    toSerializableValue (.arr [.bool true]) 1 = some (.arr [.bool true]) :=
  (C10_array_null_dropped.2.2 [.bool true] 1 (by decide)).trans rfl

-- -----------------------------------------------------------------------------
-- Claim theorem: truncateText (C6)
-- -----------------------------------------------------------------------------

/-- Claim C6: `truncateText` normalises whitespace (trim + collapse), then
returns a string of length at most limit+1, with length exactly limit+1
(the appended ellipsis character included) exactly when the normalised
input is longer than the limit. -/
theorem C6_truncate_length (text : String) (limit : Nat) :
    (truncateText text limit).length ≤ limit + 1 ∧
    ((truncateText text limit).length = limit + 1 ↔ limit < (normalizeWs text).length) := by
  have hmk : ∀ l : List Char, (String.mk l).length = l.length := fun l => rfl
  have happ : ∀ l m : List Char, (String.mk l ++ String.mk m) = String.mk (l ++ m) :=
    fun l m => rfl
  unfold truncateText
  by_cases h : (normalizeWs text).length ≤ limit
  · rw [if_pos h]
    exact ⟨Nat.le_succ_of_le h, iff_of_false (by omega) (by omega)⟩
  · rw [if_neg h]
    have hlen : (String.mk ((normalizeWs text).data.take limit) ++ "…").length = limit + 1 := by
      have hdata : (normalizeWs text).data.length = (normalizeWs text).length := rfl
      rw [show ("…" : String) = String.mk ['…'] from rfl, happ, hmk]
      simp [List.length_take]
      omega
    rw [hlen]
    exact ⟨Nat.le_refl _, iff_of_true rfl (by omega)⟩

-- -----------------------------------------------------------------------------
-- Claim theorems: route-pattern guessing (C5)
-- -----------------------------------------------------------------------------

/-- The segment loop is the per-index map of the segment rule for patterns
and its partial map for captured params. -/
theorem routeSegmentsLoop_spec (segs : List String) : ∀ idx : Nat,
    routeSegmentsLoop idx segs =
      (((List.enumFrom idx segs).map fun p => specSegmentPattern p.1 p.2),
       ((List.enumFrom idx segs).map fun p => specSegmentParam p.1 p.2).reduceOption) := by
  induction segs with
  | nil => intro idx; simp [routeSegmentsLoop, List.reduceOption]
  | cons seg rest ih =>
    intro idx
    rw [routeSegmentsLoop, ih (idx + 1)]
    simp only [List.enumFrom_cons, List.map_cons]
    by_cases h1 : (seg.length > 0 && seg.data.all fun c => c.isDigit) = true
    · simp [h1, specSegmentPattern, specSegmentParam, List.reduceOption]
    · by_cases h2 : (seg.length > 2 && seg == jsToLower seg) = true
      · simp [h1, h2, specSegmentPattern, specSegmentParam, List.reduceOption]
      · simp [h1, h2, specSegmentPattern, specSegmentParam, List.reduceOption]

/-- The segment loop from index 0, in claim form. -/
theorem routeSegmentsLoop_zero (segs : List String) :
    routeSegmentsLoop 0 segs =
      (segs.mapIdx specSegmentPattern, (segs.mapIdx specSegmentParam).reduceOption) := by
  rw [routeSegmentsLoop_spec segs 0, List.mapIdx_eq_enum_map, List.mapIdx_eq_enum_map]
  rfl

/-- Claim C5, counterexample: with a next-app stack and pathname "/ab", the
short lowercase segment "ab" does NOT stay literal — the code emits the
generic placeholder "[param0]" (literal retention requires length > 2). -/
theorem C5_counterexample :
    (nextLikeDetect c5input).bind (fun r => r.routePatternGuess) = some "/[param0]" ∧
    (nextLikeDetect c5input).map (fun r => r.framework) = some "next-app" ∧
    some "/[param0]" ≠ some "/ab" := by
  refine ⟨rfl, rfl, by decide⟩

/-- Claim C5 (amended): when the detected framework is next-app or
next-pages, the route pattern maps pathname segments index-wise — purely
numeric segments become indexed placeholders captured as params; segments
longer than 2 characters equal to their lowercasing stay literal; everything
else (including short lowercase segments) becomes a generic placeholder
captured as a param — and the captured params are exactly the placeholder
captures, null when there are none. -/
theorem C5_route_pattern_amended (input : FrameworkDetectionInput)
    (r : FrameworkDetectionResult) (hdet : nextLikeDetect input = some r)
    (hfw : r.framework = "next-app" ∨ r.framework = "next-pages") :
    r.routePatternGuess =
      some ("/" ++ String.intercalate "/"
        (((jsSplitOnChar '/' input.pathname).filter fun s => s.length > 0).mapIdx
          specSegmentPattern)) ∧
    r.routeParamsGuess =
      (let params := (((jsSplitOnChar '/' input.pathname).filter fun s => s.length > 0).mapIdx
          specSegmentParam).reduceOption
       if params.length > 0 then some params else none) := by
  unfold nextLikeDetect at hdet
  split at hdet
  · exact absurd hdet (by simp)
  · rename_i slice heq
    dsimp only at hdet
    split at hdet
    · exact absurd hdet (by simp)
    · rename_i hcond
      have hr := Option.some.inj hdet
      subst hr
      dsimp only at hfw ⊢
      rcases hfw with h | h <;>
        simp [h, routeSegmentsLoop_zero]

/-- Witness for C5: the amended theorem applied to a concrete next-app
input whose pathname mixes a literal, a numeric and a mixed-case segment. -/
theorem C5_witness :
    nextLikeDetect c5witInput = some c5witResult ∧
    c5witResult.routePatternGuess = some "/users/[id1]/[param2]" ∧
    c5witResult.routeParamsGuess = some [("id1", "42"), ("param2", "ProfileCard")] := by
  refine ⟨rfl, ?_, ?_⟩
  · exact (C5_route_pattern_amended c5witInput c5witResult rfl (Or.inl rfl)).1.trans rfl
  · exact (C5_route_pattern_amended c5witInput c5witResult rfl (Or.inl rfl)).2.trans rfl

-- -----------------------------------------------------------------------------
-- Claim theorems: preferred selector (C7)
-- -----------------------------------------------------------------------------

/-- Claim C7, counterexample: a parentless element with no id, test id or
classes gets the bare lowercase tag, not the claimed positional fallback
`tag:nth-of-type(1)`. -/
theorem C7_counterexample :
    buildPreferredSelector (fun s => s) c7elem = "div" ∧
    buildPreferredSelector (fun s => s) c7elem ≠ "div:nth-of-type(1)" := by
  refine ⟨rfl, ?_⟩
  rw [show buildPreferredSelector (fun s => s) c7elem = "div" from rfl]
  decide

/-- Claim C7 (amended): rules apply in order with the first match winning —
(1) non-empty id without spaces gives `#id`; (2) a data-testid/data-test-id
value gives the attribute selector; (3) a non-empty (filtered) class list
gives the tag chained with all classes; (4) with a parent, the positional
fallback `tag:nth-of-type(n)` where n counts same-tag preceding siblings,
1-indexed; (5) without a parent, the bare lowercase tag. -/
theorem C7_selector_priority_amended (esc : String → String) (el : Elem) :
    ((el.core.id ≠ "" ∧ ¬ el.core.id.data.contains ' ') →
      buildPreferredSelector esc el = "#" ++ esc el.core.id) ∧
    (¬(el.core.id ≠ "" ∧ ¬ el.core.id.data.contains ' ') →
      ∀ dt, getDataTestId el.core = some dt →
        buildPreferredSelector esc el = "[data-testid=\"" ++ esc dt ++ "\"]") ∧
    (¬(el.core.id ≠ "" ∧ ¬ el.core.id.data.contains ' ') →
      getDataTestId el.core = none →
      (el.core.classList.filter fun cls => cls.length > 0) ≠ [] →
        buildPreferredSelector esc el = jsToLower el.core.tagName ++ "." ++
          String.intercalate "."
            (((el.core.classList.filter fun cls => cls.length > 0)).map esc)) ∧
    (¬(el.core.id ≠ "" ∧ ¬ el.core.id.data.contains ' ') →
      getDataTestId el.core = none →
      (el.core.classList.filter fun cls => cls.length > 0) = [] →
      ∀ a rest, el.ancestors = a :: rest →
        buildPreferredSelector esc el = jsToLower el.core.tagName ++ ":nth-of-type(" ++
          toString (1 + a.left.countP fun t => t.core.tagName == el.core.tagName) ++ ")") ∧
    (¬(el.core.id ≠ "" ∧ ¬ el.core.id.data.contains ' ') →
      getDataTestId el.core = none →
      (el.core.classList.filter fun cls => cls.length > 0) = [] →
      el.ancestors = [] →
        buildPreferredSelector esc el = jsToLower el.core.tagName) := by
  have hcondOf : ∀ _ : ¬(el.core.id ≠ "" ∧ ¬ el.core.id.data.contains ' '),
      ¬((decide (el.core.id ≠ "") && !(el.core.id.data.contains ' ')) = true) := by
    intro h hb
    rcases not_and_or.mp h with h1 | h1
    · have hid : el.core.id = "" := not_not.mp h1
      rw [hid] at hb
      simp at hb
    · have hc : el.core.id.data.contains ' ' = true := not_not.mp h1
      rw [hc] at hb
      simp at hb
  refine ⟨?_, ?_, ?_, ?_, ?_⟩
  · rintro ⟨h1, h2⟩
    have hc : el.core.id.data.contains ' ' = false := by
      cases hcv : el.core.id.data.contains ' '
      · rfl
      · exact absurd hcv h2
    have hb : (decide (el.core.id ≠ "") && !(el.core.id.data.contains ' ')) = true := by
      rw [hc]
      simp [h1]
    simp only [buildPreferredSelector]
    rw [if_pos hb]
  · intro hn dt hdt
    simp only [buildPreferredSelector]
    rw [if_neg (hcondOf hn), hdt]
  · intro hn hdt hcls
    simp only [buildPreferredSelector]
    rw [if_neg (hcondOf hn), hdt, if_pos (List.length_pos.mpr hcls)]
  · intro hn hdt hcls a rest hanc
    simp only [buildPreferredSelector]
    rw [if_neg (hcondOf hn), hdt, hcls, if_neg (by simp), hanc,
      List.countP_eq_length_filter]
  · intro hn hdt hcls hanc
    simp only [buildPreferredSelector]
    rw [if_neg (hcondOf hn), hdt, hcls, if_neg (by simp), hanc]

/-- Witness for C7: the positional-fallback clause applied to a concrete
element with one same-tag preceding sibling. -/
theorem C7_witness :
    buildPreferredSelector (fun s => s) c7witElem = "div:nth-of-type(2)" :=
  ((C7_selector_priority_amended (fun s => s) c7witElem).2.2.2.1
    (by decide) rfl rfl c7witAnc [] rfl).trans rfl

-- -----------------------------------------------------------------------------
-- Claim theorem: engine construction vs client validation (C9)
-- -----------------------------------------------------------------------------

/-- Claim C9: `createInspectorEngine` performs no configuration validation —
an engine is constructed (and `getElementContext` runs to a value) with an
out-of-range `maxReactStackFrames` of 0 and with an invalid
`reactInspectorMode`, while `validateRuntimeConfigOrThrow` rejects both
configs and `createGrabrClient` (the only caller of the validation) throws
on them. -/
theorem C9_engine_unvalidated :
    (createInspectorEngine (some badFramesOverrides)).config.maxReactStackFrames = 0 ∧
    (∃ ctx, (createInspectorEngine (some badFramesOverrides)).capture benignEnv sampleElem =
      .ok ctx) ∧
    (createInspectorEngine (some badModeOverrides)).config.reactInspectorMode =
      "totally-invalid" ∧
    (∃ ctx, (createInspectorEngine (some badModeOverrides)).capture benignEnv sampleElem =
      .ok ctx) ∧
    validateRuntimeConfigOrThrow (mergeRuntimeConfig (some badFramesOverrides)) =
      .error "Invalid config.maxReactStackFrames: expected integer in range [1, 64], got 0" ∧
    validateRuntimeConfigOrThrow (mergeRuntimeConfig (some badModeOverrides)) =
      .error
        "Invalid config.reactInspectorMode: expected \"best-effort\" | \"required\" | \"off\", got totally-invalid" ∧
    createGrabrClient benignEnv (some badFramesOverrides) =
      .error "Invalid config.maxReactStackFrames: expected integer in range [1, 64], got 0" :=
  ⟨rfl, ⟨_, rfl⟩, rfl, ⟨_, rfl⟩, rfl, rfl, rfl⟩

-- -----------------------------------------------------------------------------
-- Claim theorems: getElementContext rejection behavior (C2)
-- -----------------------------------------------------------------------------

/-- Claim C2, counterexample: with healthy introspection but a throwing
`traverseProps` capability, the owner-props snapshot throw propagates out of
the tree-slice build and `getElementContext` rejects instead of degrading. -/
theorem C2_counterexample :
    getElementContext throwingEnv defaultRuntimeConfig sampleElem =
      .error "traverseProps exploded" := rfl

theorem exceptBindOk (a : α) (f : α → Except ε β) :
    (Except.ok a : Except ε α) >>= f = f a := rfl

theorem exceptBindPure (a : α) (f : α → Except ε β) :
    (pure a : Except ε α) >>= f = f a := rfl

theorem snapshotProps_isOk (env : Env) (f : Fiber)
    (h : ∃ ps, env.bippy.traverseProps f = .ok ps) :
    ∃ s, snapshotProps env f = .ok s := by
  obtain ⟨ps, hp⟩ := h
  unfold snapshotProps
  rw [hp]
  exact ⟨_, rfl⟩

theorem snapshotState_isOk (env : Env) (f : Fiber)
    (h : ∃ hs, env.bippy.traverseState f = .ok hs) :
    ∃ s, snapshotState env f = .ok s := by
  obtain ⟨hs, hp⟩ := h
  unfold snapshotState
  rw [hp]
  exact ⟨_, rfl⟩

theorem snapshotContexts_isOk (env : Env) (f : Fiber)
    (h : ∃ cs, env.bippy.traverseContexts f = .ok cs) :
    ∃ s, snapshotContexts env f = .ok s := by
  obtain ⟨cs, hp⟩ := h
  unfold snapshotContexts
  rw [hp]
  exact ⟨_, rfl⟩

theorem buildReactTreeSlice_isOk (env : Env) (el : Elem) (config : GrabrRuntimeConfig)
    (debugInfo : ReactDebugInfo)
    (hLatest : ∀ f, ∃ g, env.bippy.getLatestFiber f = .ok g)
    (hStack : ∀ f, ∃ l, env.bippy.getFiberStack f = .ok l)
    (hProps : ∀ f, ∃ ps, env.bippy.traverseProps f = .ok ps)
    (hState : ∀ f, ∃ hs, env.bippy.traverseState f = .ok hs)
    (hCtxs : ∀ f, ∃ cs, env.bippy.traverseContexts f = .ok cs) :
    ∃ r, buildReactTreeSlice env el config debugInfo = .ok r := by
  unfold buildReactTreeSlice
  by_cases h1 : (config.reactInspectorMode == "off") = true
  · rw [if_pos h1]
    exact ⟨_, rfl⟩
  · rw [if_neg h1]
    by_cases h2 : debugInfo.inspectorStatus ≠ "ok"
    · rw [if_pos h2]
      exact ⟨_, rfl⟩
    · rw [if_neg h2]
      cases hf : env.bippy.getFiberFromHostInstance el.core.ref with
      | error e => exact ⟨_, rfl⟩
      | ok fiber? =>
        cases fiber? with
        | none => exact ⟨_, rfl⟩
        | some hostFiber =>
          dsimp only
          obtain ⟨latest, hl⟩ := hLatest hostFiber
          rw [hl]
          simp only [exceptBindOk]
          obtain ⟨stackFibers, hsk⟩ := hStack latest
          rw [hsk]
          simp only [exceptBindOk]
          by_cases h3 : (stackFibers.length == 0) = true
          · rw [if_pos h3]
            exact ⟨_, rfl⟩
          · rw [if_neg h3]
            cases hidx : (jsSliceTo stackFibers config.maxReactStackFrames).findIdx?
                env.bippy.isCompositeFiber with
            | none => exact ⟨_, rfl⟩
            | some ownerIndex =>
              dsimp only
              cases hget : (jsSliceTo stackFibers config.maxReactStackFrames).get? ownerIndex with
              | none => exact ⟨_, rfl⟩
              | some ownerFiber =>
                dsimp only
                obtain ⟨props, hp⟩ := snapshotProps_isOk env ownerFiber (hProps ownerFiber)
                rw [hp]
                simp only [exceptBindOk]
                obtain ⟨st, hst⟩ := snapshotState_isOk env ownerFiber (hState ownerFiber)
                rw [hst]
                simp only [exceptBindOk]
                obtain ⟨cx, hcx⟩ := snapshotContexts_isOk env ownerFiber (hCtxs ownerFiber)
                rw [hcx]
                simp only [exceptBindOk]
                exact ⟨_, rfl⟩

theorem buildBehaviorContext_isOk (env : Env) (el : Elem)
    (reactSlice : Option ReactTreeSlice)
    (hLatest : ∀ f, ∃ g, env.bippy.getLatestFiber f = .ok g)
    (hStack : ∀ f, ∃ l, env.bippy.getFiberStack f = .ok l)
    (hProps : ∀ f, ∃ ps, env.bippy.traverseProps f = .ok ps) :
    ∃ b, buildBehaviorContext env el reactSlice = .ok b := by
  have hrec : ∀ (fiber? : Option Fiber) declaredOn src acc,
      (∀ f, ∃ ps, env.bippy.traverseProps f = .ok ps) →
      ∃ res, recordHandlersFromFiber env fiber? declaredOn src acc = .ok res := by
    intro fiber? declaredOn src acc hps
    cases fiber? with
    | none => exact ⟨_, rfl⟩
    | some fiber =>
      obtain ⟨ps, hp⟩ := hps fiber
      unfold recordHandlersFromFiber
      dsimp only
      rw [hp]
      exact ⟨_, rfl⟩
  unfold buildBehaviorContext
  cases hf : env.bippy.getFiberFromHostInstance el.core.ref with
  | error e => exact ⟨_, rfl⟩
  | ok fiber? =>
    cases fiber? with
    | none => exact ⟨_, rfl⟩
    | some hostFiber =>
      dsimp only
      obtain ⟨latest, hl⟩ := hLatest hostFiber
      rw [hl]
      simp only [exceptBindOk]
      obtain ⟨stackFibers, hsk⟩ := hStack latest
      rw [hsk]
      simp only [exceptBindOk]
      obtain ⟨acc1, ha1⟩ := hrec (some hostFiber) _ _ ([], []) hProps
      rw [ha1]
      simp only [exceptBindOk]
      cases reactSlice with
      | none => exact ⟨_, rfl⟩
      | some slice =>
        dsimp only
        cases slice.ownerIndex with
        | none => exact ⟨_, rfl⟩
        | some ownerIndex =>
          dsimp only
          obtain ⟨acc2, ha2⟩ := hrec (stackFibers.get? ownerIndex) _ _ acc1 hProps
          rw [ha2]
          simp only [exceptBindOk]
          exact ⟨_, rfl⟩

/-- Claim C2 (amended): `getElementContext` never rejects *provided the
frame-walk and traversal capabilities (`getLatestFiber`, `getFiberStack`,
`traverseProps`, `traverseState`, `traverseContexts`) do not throw*; throws
from `getFiberFromHostInstance` and per-frame `getSource` are caught and
degrade the affected facet, and all facets are present in the result (its
type). A throwing traversal rejects — see the counterexample. -/
theorem C2_never_rejects_amended (env : Env) (config : GrabrRuntimeConfig) (el : Elem)
    (hLatest : ∀ f, ∃ g, env.bippy.getLatestFiber f = .ok g)
    (hStack : ∀ f, ∃ l, env.bippy.getFiberStack f = .ok l)
    (hProps : ∀ f, ∃ ps, env.bippy.traverseProps f = .ok ps)
    (hState : ∀ f, ∃ hs, env.bippy.traverseState f = .ok hs)
    (hCtxs : ∀ f, ∃ cs, env.bippy.traverseContexts f = .ok cs) :
    ∃ ctx, getElementContext env config el = .ok ctx := by
  unfold getElementContext
  by_cases h1 : (config.reactInspectorMode == "off") = true
  · rw [if_pos h1]
    simp only [exceptBindPure]
    obtain ⟨b, hb⟩ := buildBehaviorContext_isOk env el none hLatest hStack hProps
    rw [hb]
    simp only [exceptBindOk]
    exact ⟨_, rfl⟩
  · rw [if_neg h1]
    obtain ⟨slice, hs⟩ := buildReactTreeSlice_isOk env el config
      (getReactDebugInfoForElement env el) hLatest hStack hProps hState hCtxs
    rw [hs]
    simp only [exceptBindOk]
    obtain ⟨b, hb⟩ := buildBehaviorContext_isOk env el slice hLatest hStack hProps
    rw [hb]
    simp only [exceptBindOk]
    exact ⟨_, rfl⟩

/-- Witness for C2: the amended theorem applied to an environment whose
*caught* capabilities (`getFiberFromHostInstance`, `getSource`) throw while
the traversal capabilities are benign — capture still succeeds. -/
theorem C2_witness :
    ∃ ctx, getElementContext caughtThrowEnv defaultRuntimeConfig sampleElem = .ok ctx :=
  C2_never_rejects_amended caughtThrowEnv defaultRuntimeConfig sampleElem
    (fun f => ⟨f, rfl⟩) (fun _ => ⟨[], rfl⟩) (fun _ => ⟨[], rfl⟩)
    (fun _ => ⟨[], rfl⟩) (fun _ => ⟨[], rfl⟩)

-- -----------------------------------------------------------------------------
-- Claim theorem: prompt rendering (C8)
-- -----------------------------------------------------------------------------

/-- Claim C8: `renderElementContextPrompt` is deterministic (two calls on the
identical context yield the identical string — the embedding is a pure
function of the context), and every render opens with a tag carrying the
derived selection id and document checksum and closes with a tag carrying
the *same* selection id and checksum. -/
theorem C8_render_deterministic_checksum :
    (∀ ctxA ctxB : ElementContextV2, ctxA = ctxB →
      renderElementContextPrompt ctxA = renderElementContextPrompt ctxB) ∧
    (∀ context : ElementContextV2,
      (renderElementContextLines context).head? =
        some (openTagLine (deriveSelectionId context) (contextChecksum context)) ∧
      (renderElementContextLines context).getLast? =
        some (closeTagLine (deriveSelectionId context) (contextChecksum context))) := by
  constructor
  · intro ctxA ctxB h
    rw [h]
  · intro context
    constructor
    · rfl
    · simp only [renderElementContextLines]
      rw [List.getLast?_append_cons]
      rfl

/-- Witness for C8: determinism applied at a concrete context. -/
theorem C8_witness :
    renderElementContextPrompt sampleCtx = renderElementContextPrompt sampleCtx :=
  C8_render_deterministic_checksum.1 sampleCtx sampleCtx rfl

-- -----------------------------------------------------------------------------
-- Claim theorem: finalizeSelection partial failure (C1)
-- -----------------------------------------------------------------------------

/-- Claim C1: finalizing three distinct connected elements where capture
throws for exactly the middle one still constructs a session, containing
exactly the two successfully captured contexts in input order, and its
summary mentions "1 failed". -/
theorem C1_finalize_partial_failure (cenv : CaptureEnv) (instr : Option String)
    (e1 e2 e3 : Elem) (ctxA ctxB : ElementContextV2) (err : String)
    (h12 : e1.core.ref ≠ e2.core.ref) (h13 : e1.core.ref ≠ e3.core.ref)
    (h23 : e2.core.ref ≠ e3.core.ref)
    (hc1 : isElementConnectedToDocument cenv.hasDocument e1 = true)
    (hc2 : isElementConnectedToDocument cenv.hasDocument e2 = true)
    (hc3 : isElementConnectedToDocument cenv.hasDocument e3 = true)
    (hcap1 : cenv.capture e1 = .ok ctxA)
    (hcap2 : cenv.capture e2 = .error err)
    (hcap3 : cenv.capture e3 = .ok ctxB) :
    ∃ s, (finalizeSelection cenv instr [e1, e2, e3]).2 = some s ∧
      s.elements = [ctxA, ctxB] ∧
      s.summary = some "Session with 2 element(s) captured; 1 failed." ∧
      "1 failed".data <:+: "Session with 2 element(s) captured; 1 failed.".data := by
  have b12 : (e1.core.ref == e2.core.ref) = false := by simp [h12]
  have b13 : (e1.core.ref == e3.core.ref) = false := by simp [h13]
  have b23 : (e2.core.ref == e3.core.ref) = false := by simp [h23]
  have hded : dedupeElementsPreserveOrder [e1, e2, e3] = [e1, e2, e3] := by
    simp [dedupeElementsPreserveOrder, dedupeLoop, List.contains, b12, b13, b23,
      Ne.symm h12, Ne.symm h13, Ne.symm h23]
  have hfil : ([e1, e2, e3].filter (isElementConnectedToDocument cenv.hasDocument)) =
      [e1, e2, e3] := by
    simp [List.filter, hc1, hc2, hc3]
  refine ⟨⟨cenv.sessionId, cenv.createdAt, cenv.url, instr,
    some "Session with 2 element(s) captured; 1 failed.", [ctxA, ctxB]⟩, ?_, rfl, rfl,
    by decide⟩
  unfold finalizeSelection
  rw [hded, hfil]
  simp only [mapWithConcurrencyLimit, List.mapIdx_cons, List.mapIdx_nil, hcap1, hcap2, hcap3,
    List.countP_cons, List.countP_nil, exceptFails, List.filterMap_cons, List.filterMap_nil,
    List.length_cons, List.length_nil, id]
  norm_num
  rfl

/-- Witness for C1: the theorem applied to three concrete elements where the
middle capture throws. -/
theorem C1_witness :
    ∃ s, (finalizeSelection wCaptureEnv none
        [mkWitnessElem 1, mkWitnessElem 2, mkWitnessElem 3]).2 = some s ∧
      s.elements = [sampleCtx, sampleCtx] ∧
      s.summary = some "Session with 2 element(s) captured; 1 failed." ∧
      "1 failed".data <:+: "Session with 2 element(s) captured; 1 failed.".data :=
  C1_finalize_partial_failure wCaptureEnv none (mkWitnessElem 1) (mkWitnessElem 2)
    (mkWitnessElem 3) sampleCtx sampleCtx "capture failed"
    (by decide) (by decide) (by decide) rfl rfl rfl rfl rfl rfl

end Aigrab
